import Mathlib

/-!
Verification development for the QuranLife verse-matching engine
(`src/app/layout.tsx`, class `QuranEngine`, plus the `handleLoadMore`
handler of `src/components/SmartGuidance.tsx`).

Modelling conventions:
* JavaScript numbers are modelled exactly as rationals (`ℚ`); the weights
  0.7, 0.5 and the cap 0.95 become `7/10`, `1/2`, `19/20`.
* Strings are Lean `String`s.  The source data is ASCII apart from a few
  decorative characters; ASCII apostrophes inside the engine's string
  constants are transcribed as `*`.  This is behaviour-preserving: every
  keyword produced by `extractKeywords` consists of `\w` characters only
  (letters, digits, `_`), `extractKeywords` strips all non-`\w` characters
  after measuring token length (both `'` and `*` are non-`\w` and have
  length one), and every substring test in the engine searches for such a
  keyword, so exchanging one non-word character for another changes no
  token and no match anywhere.
* `text.toLowerCase()` is modelled with `Char.toLower` (all engine inputs
  of interest are ASCII).
* `split(/\s+/)` is modelled by a whitespace splitter that drops empty
  fragments; the JavaScript call can additionally produce a leading empty
  fragment, which the subsequent `length > 2` filter discards either way.
* Remote calls (`quranAPI.searchVerses` / `getVerse` / `getSurah`) are an
  external collaborator (spec §4.4); they are modelled as an environment
  that maps a global call index and the arguments to `Except Unit _`,
  so every call can independently fail or return arbitrary data.
* `Math.random()`-driven choices (`Math.floor(Math.random()*n)`) are
  modelled by a stream `rng : ℕ → ℕ` with a cursor in the engine state;
  the drawn value is `rng cursor % n`.
* JavaScript exceptions are modelled with `Except Unit`; each
  `try`/`catch` of the source becomes an explicit `match` on the body's
  result, with the handler run on the state reached when the exception
  was raised (mutations before a throw persist, as in JavaScript).
-/

/-! ### Character and string primitives -/

/-- Prefix test on character lists (`chPre p l` ⇔ `l` starts with `p`). -/
def chPre : List Char → List Char → Bool
  | [], _ => true
  | _ :: _, [] => false
  | a :: ps, b :: ls => a == b && chPre ps ls

/-- Substring test on character lists (`chSub p l` ⇔ `p` occurs inside `l`). -/
def chSub (p : List Char) : List Char → Bool
  | [] => p.isEmpty
  | b :: ls => chPre p (b :: ls) || chSub p ls

/-- Model of JavaScript `s.includes(sub)`. -/
def strIncludes (s sub : String) : Bool :=
  chSub sub.data s.data

/-- Lower-casing of a whole string (`text.toLowerCase()` on ASCII data). -/
def lowerStr (s : String) : String :=
  ⟨s.data.map Char.toLower⟩

/-- Characters matched by the JavaScript `\w` class. -/
def isWordChar (c : Char) : Bool :=
  c.isAlphanum || c == '_'

/-- Model of `word.replace(/[^\w]/g, '')`. -/
def stripNonWord (s : String) : String :=
  ⟨s.data.filter isWordChar⟩

/-- Worker for `splitWs`: accumulates the current fragment (reversed). -/
def wsSplitAux : List Char → List Char → List String
  | [], acc => if acc.isEmpty then [] else [⟨acc.reverse⟩]
  | c :: cs, acc =>
    if c.isWhitespace then
      if acc.isEmpty then wsSplitAux cs [] else ⟨acc.reverse⟩ :: wsSplitAux cs []
    else wsSplitAux cs (c :: acc)

/-- Model of `text.split(/\s+/)` (empty fragments dropped; see header note). -/
def splitWs (s : String) : List String :=
  wsSplitAux s.data []

/-! ### `QuranEngine.extractKeywords` -/

/-- Source: `extractKeywords` — lowercase, split on whitespace, keep tokens of
length `> 2`, then strip non-word characters from each. -/
def extractKeywords (text : String) : List String :=
  ((splitWs (lowerStr text)).filter (fun w => decide (2 < w.length))).map stripNonWord

/-! ### Kernel-computable rational arithmetic

The engine's numbers are rationals.  The standard `Rat` operations of the
ambient library are deliberately opaque to definitional unfolding, which
would make the model non-evaluable inside proofs; the model therefore
computes with the following `Rat.divInt`-based operations, each proved
equal to (or characterising) the standard one below. -/

/-- Addition on ℚ via `Rat.divInt` (equals `a + b`, see `qAdd_eq`). -/
def qAdd (a b : ℚ) : ℚ :=
  Rat.divInt (a.num * (b.den : ℤ) + b.num * (a.den : ℤ)) ((a.den : ℤ) * (b.den : ℤ))

/-- Negation on ℚ via `Rat.divInt` (equals `-a`, see `qNeg_eq`). -/
def qNeg (a : ℚ) : ℚ :=
  Rat.divInt (-a.num) (a.den : ℤ)

/-- Subtraction on ℚ (equals `a - b`, see `qSub_eq`). -/
def qSub (a b : ℚ) : ℚ :=
  qAdd a (qNeg b)

/-- Multiplication on ℚ via `Rat.divInt` (equals `a * b`, see `qMul_eq`). -/
def qMul (a b : ℚ) : ℚ :=
  Rat.divInt (a.num * b.num) ((a.den : ℤ) * (b.den : ℤ))

/-- Inverse on ℚ via `Rat.divInt` (equals `a⁻¹`, see `qInv_eq`). -/
def qInv (a : ℚ) : ℚ :=
  Rat.divInt (a.den : ℤ) a.num

/-- Division on ℚ (equals `a / b`, see `qDiv_eq`). -/
def qDiv (a b : ℚ) : ℚ :=
  qMul a (qInv b)

/-- Boolean strict comparison on ℚ (decides `a < b`, see `qLtB_eq`). -/
def qLtB (a b : ℚ) : Bool :=
  decide (a.num * (b.den : ℤ) < b.num * (a.den : ℤ))

/-- Boolean comparison on ℚ (decides `a ≤ b`, see `qLeB_eq`). -/
def qLeB (a b : ℚ) : Bool :=
  decide (a.num * (b.den : ℤ) ≤ b.num * (a.den : ℤ))

/-- Minimum on ℚ (equals `min a b`, see `qMin_eq`). -/
def qMin (a b : ℚ) : ℚ :=
  if qLeB a b then a else b

/-- Maximum on ℚ (equals `max a b`, see `qMax_eq`). -/
def qMax (a b : ℚ) : ℚ :=
  if qLeB a b then b else a

/-! ### Static guidance tables (transcribed from the source constants) -/

/-- Source: the `PRACTICAL_GUIDANCE` record, in its key insertion order.
Note the source record has no `guidance` key. -/
def practicalGuidance : List (String × List String) :=
  [ ("patience",
     [ "Make dua during difficult times: *Rabbana afrigh *alayna sabran* (Our Lord, pour upon us patience)"
     , "Practice the 3-breath technique when feeling impatient"
     , "Remember that every difficulty is temporary and has wisdom"
     , "Read stories of Prophet Ayub (Job) for inspiration"
     , "Set realistic timelines for your goals" ])
  , ("prayer",
     [ "Set 5 phone reminders for daily prayers"
     , "Prepare a clean prayer space in your home"
     , "Learn the meanings of Surah Al-Fatiha"
     , "Make dua in your own language after each prayer"
     , "Join congregation prayers when possible" ])
  , ("health",
     [ "Remember your body is an amanah (trust) from Allah"
     , "Make dua before physical activities: *Allahumma a*inni wa la tu*in *alayya* (O Allah, help me and do not help others against me)"
     , "Exercise with the intention of strengthening yourself for worship"
     , "Maintain moderation in all physical activities"
     , "Thank Allah for the strength and ability He has given you"
     , "Use fitness time for dhikr (remembrance of Allah)"
     , "Remember the Prophet*s ﷺ emphasis on physical strength and health" ])
  , ("fitness",
     [ "Set consistent workout schedules as discipline for the soul"
     , "Use gym time for reflection and gratitude"
     , "Remember that physical strength helps in serving Allah better"
     , "Practice moderation - avoid obsession with appearance"
     , "Make intention to be strong for your family and community"
     , "Include walking or movement as Sunnah practices"
     , "Thank Allah for your body*s capabilities after each workout" ])
  , ("strength",
     [ "Seek both physical and spiritual strength from Allah"
     , "Remember: *The strong believer is better than the weak believer*"
     , "Use physical training to build mental resilience"
     , "Combine physical exercise with spiritual exercises (prayer, dhikr)"
     , "Help others using your physical capabilities"
     , "Maintain humility despite gaining strength"
     , "Use strength to protect and serve, not to show off" ])
  , ("change",
     [ "Start with one small habit change this week"
     , "Make du*a: *Rabbana atina fi*d-dunya hasanatan* (Our Lord, give us good in this world)"
     , "Write down 3 specific steps toward your goal"
     , "Find an accountability partner in your community"
     , "Celebrate small victories along the way" ])
  , ("family",
     [ "Schedule weekly family time without devices"
     , "Teach children one new Islamic value each month"
     , "Practice forgiveness and patience with family members"
     , "Make family du*a together before meals"
     , "Share stories of the Prophet*s family life" ])
  , ("anxiety",
     [ "Recite Ayat al-Kursi when feeling anxious"
     , "Practice deep breathing with *La hawla wa la quwwata illa billah*"
     , "Maintain regular prayer times for structure"
     , "Seek support from trusted friends or counselors"
     , "Remember that Allah does not burden a soul beyond its capacity" ])
  , ("success",
     [ "Begin every endeavor with *Bismillah*"
     , "Set intentions (niyyah) aligned with Islamic values"
     , "Balance worldly goals with spiritual growth"
     , "Give charity (sadaqah) as you progress"
     , "Remember success comes from Allah alone" ]) ]

/-- First-match lookup in an association list (JavaScript object/`Map` read). -/
def tblGet {α : Type} : List (String × α) → String → Option α
  | [], _ => none
  | (k, v) :: t, key => if k = key then some v else tblGet t key

/-- Theme names in the registration (insertion) order of `PRACTICAL_GUIDANCE`. -/
def themeOrder : List String :=
  practicalGuidance.map Prod.fst

/-- Source: the `keywordMapping` synonym table inside `determineTheme`. -/
def keywordMapping : List (String × List String) :=
  [ ("fitness",
     [ "fitness", "gym", "exercise", "workout", "training", "sport", "muscle", "cardio", "strength", "physical", "body"
     , "run", "running", "jog", "jogging", "walk", "walking", "swim", "swimming", "bike", "cycling", "lift", "lifting"
     , "weight", "weights", "aerobics", "yoga", "pilates", "dance", "dancing", "martial", "arts", "boxing", "kickboxing"
     , "crossfit", "hiit", "treadmill", "elliptical", "stairmaster", "rowing", "rowing", "squat", "deadlift", "bench"
     , "pushup", "pullup", "plank", "burpee", "jumping", "jacks", "mountain", "climber", "lunge", "crunch", "situp" ])
  , ("health",
     [ "health", "wellness", "medical", "care", "healing", "recovery", "nutrition", "diet", "food", "eating", "meal"
     , "vitamin", "supplement", "medicine", "doctor", "hospital", "clinic", "therapy", "treatment", "surgery"
     , "mental", "psychology", "therapy", "counseling", "meditation", "mindfulness", "sleep", "rest", "relaxation"
     , "stress", "management", "hygiene", "clean", "sanitize", "vaccine", "immunization", "prevention", "screening" ])
  , ("strength",
     [ "strong", "strength", "power", "powerful", "force", "endurance", "mighty", "robust", "sturdy", "tough", "resilient"
     , "unyielding", "steadfast", "firm", "solid", "unbreakable", "indomitable", "invincible", "unconquerable"
     , "strive", "striving", "effort", "persevere", "perseverance", "persist", "persistent" ])
  , ("prayer",
     [ "pray", "prayer", "salah", "salat", "worship", "dua", "dhikr", "mosque", "qibla", "adhan", "azan", "iqama"
     , "rakah", "rakat", "sujud", "ruku", "qiyam", "jalsa", "tashahhud", "tasleem", "fatiha", "ayat", "verse"
     , "recitation", "tilawah", "quran", "koran", "surah", "ayah", "juz", "hizb", "masjid", "musalla", "mihrab"
     , "minbar", "minaret", "wudu", "ablution", "ghusl", "tayammum", "qibla", "direction", "kaaba", "makkah" ])
  , ("patience",
     [ "patient", "patience", "wait", "waiting", "endure", "endurance", "persevere", "perseverance", "difficult"
     , "hardship", "trial", "test", "challenge", "struggle", "suffer", "suffering", "tolerate", "tolerance"
     , "forbear", "forbearance", "steadfast", "steadfastness", "resilient", "resilience", "persistent", "persistence"
     , "determined", "determination", "tenacious", "tenacity", "unwavering", "unshakeable", "unmovable" ])
  , ("family",
     [ "family", "parent", "child", "children", "marriage", "spouse", "relationship", "home", "household"
     , "mother", "father", "son", "daughter", "brother", "sister", "grandparent", "grandfather", "grandmother"
     , "uncle", "aunt", "cousin", "niece", "nephew", "husband", "wife", "partner", "spouse", "inlaw"
     , "domestic", "household", "home", "house", "residence", "dwelling", "abode", "nest", "hearth" ])
  , ("anxiety",
     [ "anxious", "anxiety", "worry", "worried", "stress", "stressed", "fear", "fearful", "nervous", "panic"
     , "overwhelmed", "overwhelming", "afraid", "scared", "terrified", "frightened", "alarmed", "distressed"
     , "troubled", "concerned", "uneasy", "uncomfortable", "restless", "agitated", "jittery", "tense"
     , "apprehensive", "dread", "dreadful", "horror", "horrified", "shocked", "shocking", "startled" ])
  , ("success",
     [ "achieve", "achievement", "goal", "accomplish", "accomplishment", "succeed", "success", "victory"
     , "win", "winning", "progress", "advance", "advancement", "improve", "improvement", "excel", "excellence"
     , "outperform", "outstanding", "exceptional", "remarkable", "notable", "distinguished", "eminent"
     , "prominent", "prestigious", "honorable", "respectable", "admirable", "commendable", "praiseworthy" ])
  , ("change",
     [ "change", "changing", "improve", "improvement", "transform", "transformation", "better", "betterment"
     , "habit", "habits", "different", "difference", "new", "renew", "renewal", "modify", "modification"
     , "alter", "alteration", "adjust", "adjustment", "adapt", "adaptation", "evolve", "evolution"
     , "develop", "development", "grow", "growth", "mature", "maturity", "progress", "progression" ]) ]

/-! ### `QuranEngine.determineTheme` -/

/-- Per-keyword synonym contribution of `determineTheme`
(`+1` when the theme's synonym list contains the keyword). -/
def synScore (t k : String) : ℚ :=
  if ((tblGet keywordMapping t).getD []).contains k then 1 else 0

/-- Per-keyword practical-guidance contribution of `determineTheme`
(`+0.5` when some guidance line of the theme contains the keyword
as a substring, lower-cased). -/
def guidScore (t k : String) : ℚ :=
  if ((tblGet practicalGuidance t).getD []).any
      (fun tk => strIncludes (lowerStr tk) k) then mkRat 1 2 else 0

/-- Accumulated score one theme receives from a keyword list.  The source
iterates keywords in the outer loop, adding into `themeScores[theme]`; the
per-theme total is the same sum. -/
def themeScore (t : String) (ks : List String) : ℚ :=
  ks.foldl (fun acc k => qAdd (qAdd acc (synScore t k)) (guidScore t k)) 0

/-- Stable insertion (used by `sortDesc`): the new element goes after every
existing element whose key is ≥ its own. -/
def insDesc {α : Type} (key : α → ℚ) (x : α) : List α → List α
  | [] => [x]
  | y :: ys => if qLtB (key y) (key x) then x :: y :: ys else y :: insDesc key x ys

/-- Stable descending sort, modelling JavaScript's stable
`array.sort((a, b) => keyB - keyA)`. -/
def sortDesc {α : Type} (key : α → ℚ) (l : List α) : List α :=
  l.foldl (fun acc x => insDesc key x acc) []

/-- Source: `determineTheme` — score every `PRACTICAL_GUIDANCE` theme,
keep the strictly positive ones, stable-sort descending, take the first;
`guidance` when none is positive. -/
def determineTheme (keywords : List String) : String :=
  let entries := themeOrder.map (fun t => (t, themeScore t keywords))
  let positives := entries.filter (fun p => qLtB 0 p.2)
  match sortDesc Prod.snd positives with
  | [] => "guidance"
  | e :: _ => e.1

/-! ### `QuranEngine.calculateSemanticMatches` and `calculateRelevanceScore` -/

/-- Source: the `semanticMap` table inside `calculateSemanticMatches`. -/
def semanticMap : List (String × List String) :=
  [ ("fitness", ["strength", "power", "ability", "body", "strive", "effort"])
  , ("health", ["healing", "cure", "wellness", "body", "care", "blessing"])
  , ("prayer", ["worship", "salah", "remembrance", "dhikr", "establish"])
  , ("family", ["children", "parents", "mercy", "compassion", "love"])
  , ("success", ["achievement", "blessing", "prosper", "victory", "triumph"])
  , ("patience", ["endure", "persevere", "steadfast", "resilient"])
  , ("study", ["knowledge", "wisdom", "learn", "understand", "reflect"])
  , ("work", ["effort", "strive", "provision", "sustenance", "blessing"]) ]

/-- Source: `calculateSemanticMatches` — each goal word contributes at most
once (the source `break`s after the first related word that matches). -/
def calculateSemanticMatches (goalWords verseWords : List String) : ℕ :=
  goalWords.foldl
    (fun n gw =>
      if ((tblGet semanticMap gw).getD []).any
          (fun rw => verseWords.any (fun vw => strIncludes vw rw || strIncludes rw vw))
      then n + 1 else n)
    0

/-- The fields of a converted verse record that the scorer reads. -/
structure QuranVerse where
  id : ℕ
  surah : String
  surah_number : ℕ
  ayah : ℕ
  text_ar : String
  text_en : String
  theme : List String
  reflection : String
  practical_guidance : Option (List String)
  context : String
  life_application : String
  audio : Option String
deriving DecidableEq

/-- Source: `calculateRelevanceScore`.  `looseMatches` is the source's
`partialMatches` (goal words that are a substring of, or contain, some
verse word). -/
def calculateRelevanceScore (goal : String) (verse : QuranVerse) : ℚ :=
  let goalWords := extractKeywords goal
  let verseWords := extractKeywords (verse.text_en ++ " " ++ verse.reflection)
  let exactMatches := goalWords.filter (fun word => verseWords.any (fun vw => vw == word))
  let looseMatches := goalWords.filter
    (fun word => verseWords.any (fun vw => strIncludes vw word || strIncludes word vw))
  let semanticCount := calculateSemanticMatches goalWords verseWords
  let exactScore : ℚ := qMul (exactMatches.length : ℚ) 1
  let looseScore : ℚ := qMul (qSub (looseMatches.length : ℚ) (exactMatches.length : ℚ)) (mkRat 7 10)
  let semanticScore : ℚ := qMul (semanticCount : ℚ) (mkRat 1 2)
  let totalMatches := qAdd (qAdd exactScore looseScore) semanticScore
  let maxPossibleScore : ℚ := qMul (goalWords.length : ℚ) 1
  qMin (mkRat 19 20) (qDiv totalMatches (qMax maxPossibleScore 1))

/-! ### Raw API data model (shape used by the engine; the remote API itself
is the external collaborator of spec §4.4 and is modelled as an environment) -/

/-- A raw search / lookup result (`Verse` of `quran-api`): the engine reads
`number`, `numberInSurah`, `text`, `translation`, `audio`. -/
structure APIVerse where
  number : ℕ
  numberInSurah : ℕ
  text : String
  translation : Option String
  audio : Option String
deriving DecidableEq

/-- Surah metadata as read by the engine (`number`, `englishName`). -/
structure SurahInfo where
  number : ℕ
  englishName : Option String
deriving DecidableEq

/-- The argument shape of `convertAPIVerseToQuranVerse`. -/
structure RandomVerseResponse where
  verse : APIVerse
  surah : SurahInfo
  theme : Option String
  context : Option String
  audio : Option String
deriving DecidableEq

/-- Source: `GoalMatchResult` (`duaRecommendation` is optional because
`DUA_RECOMMENDATIONS` has no `prayer` key). -/
structure GoalMatchResult where
  verse : QuranVerse
  relevanceScore : ℚ
  practicalSteps : List String
  duaRecommendation : Option String
  relatedHabits : List String
deriving DecidableEq

/-- Source: `ThematicCollection`. -/
structure ThematicCollection where
  theme : String
  description : String
  verses : List QuranVerse
  practicalGuidance : List String
  recommendedActions : List String
deriving DecidableEq

/-- Behaviour of the remote verse source: each operation receives the global
API-call index, so every call can independently fail or answer arbitrarily.
`shuffle` stands for the comparator-randomised `refs.sort(() => Math.random()
- 0.5)` of `getCuratedThemeVerses`, whose outcome is
implementation-defined. -/
structure ApiEnv where
  search : ℕ → String → Except Unit (List APIVerse)
  getVerse : ℕ → ℕ → ℕ → Except Unit APIVerse
  getSurah : ℕ → ℕ → Except Unit SurahInfo
  shuffle : List (ℕ × ℕ) → List (ℕ × ℕ)

/-- Engine state: the two cache maps of `QuranEngine`, the API-call and
randomness cursors, and two instrumentation counters (`searchCalls` counts
`searchVerses` calls, `thematicCalls` counts entries into
`getThematicVersesForGoal`). -/
structure EngSt where
  cache : List (String × ThematicCollection)
  cacheExp : List (String × ℕ)
  apiCalls : ℕ
  searchCalls : ℕ
  thematicCalls : ℕ
  rix : ℕ
deriving DecidableEq

/-- The empty engine state (fresh `QuranEngine` instance). -/
def st0 : EngSt :=
  { cache := [], cacheExp := [], apiCalls := 0, searchCalls := 0, thematicCalls := 0, rix := 0 }

/-- One random draw: `Math.floor(Math.random() * n)` becomes
`rng cursor % n`, advancing the cursor. -/
def draw (rng : ℕ → ℕ) (n : ℕ) (st : EngSt) : ℕ × EngSt :=
  (rng st.rix % n, { st with rix := st.rix + 1 })

/-- JavaScript `a || b` for an optional string `a` (empty string is falsy). -/
def jsOrStr : Option String → String → String
  | some s, d => if s = "" then d else s
  | none, d => d

/-- JavaScript truthiness normalisation of an optional string. -/
def optTruthy : Option String → Option String
  | some s => if s = "" then none else some s
  | none => none

/-- Map update, `Map.set` / object write semantics (overwrite keeps the
original insertion position). -/
def tblPut {α : Type} : List (String × α) → String → α → List (String × α)
  | [], key, v => [(key, v)]
  | (k, w) :: t, key, v => if k = key then (k, v) :: t else (k, w) :: tblPut t key v

/-! ### Remaining static tables -/

/-- Source: `DUA_RECOMMENDATIONS` (note: no `prayer` key). -/
def duaRecommendations : List (String × String) :=
  [ ("patience", "Rabbana afrigh *alayna sabran wa thabbit aqdamana (Our Lord, pour upon us patience and make our steps firm)")
  , ("change", "Rabbana atina fi*d-dunya hasanatan wa fi*l-akhirati hasanatan (Our Lord, give us good in this world and good in the hereafter)")
  , ("guidance", "Rabbana la tuzigh qulubana ba*da idh hadaytana (Our Lord, do not let our hearts deviate after You have guided us)")
  , ("family", "Rabbana hab lana min azwajina wa dhurriyyatina qurrata a*yunin (Our Lord, grant us wives and offspring who will be the comfort of our eyes)")
  , ("anxiety", "Hasbunallahu wa ni*mal wakeel (Allah is sufficient for us and He is the best guardian)")
  , ("success", "Rabbi a*inni wa la tu*in *alayya (My Lord, help me and do not help against me)")
  , ("health", "Allahumma *afini fi badani, Allahumma *afini fi sam*i, Allahumma *afini fi basari (O Allah, grant me health in my body, O Allah, grant me health in my hearing, O Allah, grant me health in my sight)")
  , ("fitness", "Allahumma a*inni wa la tu*in *alayya wa*nsurni wa la tansur *alayya (O Allah, help me and do not help others against me, support me and do not support others against me)")
  , ("strength", "Allahumma inni as*aluka min quwwatika wa *afiyatika (O Allah, I ask You for Your strength and Your well-being)") ]

/-- The `guidance` entry of `reflectionTemplates` (also the `||` fallback). -/
def reflectionGuidanceTemplates : List String :=
  [ "Divine guidance illuminates our path when we sincerely seek Allah*s direction."
  , "This verse reminds us that true wisdom comes from following Islamic teachings."
  , "Guidance is available to all who approach Allah with humility and openness to learn." ]

/-- Source: the `reflectionTemplates` record inside `generateReflection`. -/
def reflectionTemplates : List (String × List String) :=
  [ ("patience",
     [ "This verse reminds us that patience is not just waiting, but maintaining faith during challenges."
     , "True patience involves trusting Allah*s timing while continuing to make effort."
     , "Every test is an opportunity to grow closer to Allah and strengthen our character." ])
  , ("prayer",
     [ "Prayer is our direct connection to Allah, offering guidance and peace in all situations."
     , "This verse emphasizes that consistent worship transforms our hearts and daily actions."
     , "Through prayer, we align our will with Allah*s guidance and find purpose in our days." ])
  , ("change",
     [ "Personal transformation begins with sincere intention and trust in Allah*s support."
     , "This verse teaches us that positive change requires both effort and reliance on Allah."
     , "Growth happens gradually - each small step taken with faith leads to lasting transformation." ])
  , ("guidance", reflectionGuidanceTemplates)
  , ("fitness",
     [ "Islam teaches us to care for our bodies as a trust (amanah) from Allah. This verse reminds us that striving and effort are valued in Islam - whether spiritual or physical."
     , "Physical strength enables us to better serve Allah, our families, and our communities. This verse encourages perseverance in all beneficial efforts."
     , "The Prophet ﷺ said *The strong believer is better than the weak believer.* This verse guides us to pursue strength with the right intention - to serve Allah better." ])
  , ("strength",
     [ "True strength comes from both physical capability and spiritual fortitude. This verse reminds us to seek strength through faith and effort."
     , "Building strength - whether of body, character, or faith - requires consistent effort and reliance on Allah*s help."
     , "Physical strength is a blessing that enables us to fulfill our duties better. This verse encourages us to strive with gratitude." ])
  , ("health",
     [ "Our health is a precious gift from Allah, and maintaining it is part of our worship. This verse reminds us of Allah*s care and mercy."
     , "Taking care of our health allows us to worship Allah better and serve others. This verse encourages mindful living."
     , "Islam emphasizes preventive care and balance. This verse guides us to approach health with gratitude and trust in Allah." ]) ]

/-- The `prayer` entry of the `applications` record (also the `||` fallback). -/
def applicationPrayerTemplates : List String :=
  [ "Reflect on this verse during your daily prayers for deeper spiritual connection." ]

/-- Source: the `applications` record inside `generateLifeApplication`. -/
def lifeApplications : List (String × List String) :=
  [ ("patience",
     [ "When facing delays in your goals, use this time for extra dhikr and self-improvement."
     , "Practice gratitude daily to maintain perspective during challenging periods."
     , "Set small, achievable milestones to maintain motivation while exercising patience." ])
  , ("prayer", applicationPrayerTemplates)
  , ("change",
     [ "Apply this verse*s wisdom by taking one concrete step toward your goal today."
     , "Create a accountability system with someone who shares your Islamic values."
     , "Reflect on this verse weekly to stay motivated on your transformation journey." ]) ]

/-- Source: the `habitMap` record inside `getRelatedHabits`. -/
def habitMap : List (String × List String) :=
  [ ("patience", ["Daily dhikr", "Gratitude journaling", "Regular prayer"])
  , ("prayer", ["5 daily prayers", "Morning athkar", "Evening dhikr"])
  , ("change", ["Goal setting", "Daily reflection", "Skill learning"])
  , ("family", ["Family time", "Teaching children", "Shared meals"])
  , ("anxiety", ["Stress management", "Seeking support", "Mindful breathing"])
  , ("success", ["Planning", "Charity giving", "Continuous learning"]) ]

/-- Source: the `searchTerms` record inside `getThemeSearchTerms`. -/
def themeSearchTermsTable : List (String × String) :=
  [ ("patience", "patience perseverance endurance")
  , ("prayer", "prayer worship remembrance establish prayer salah salat")
  , ("change", "change transformation growth")
  , ("family", "family children parents")
  , ("anxiety", "peace comfort trust")
  , ("success", "success achievement blessing")
  , ("health", "body strength health care trust")
  , ("fitness", "strength power ability body")
  , ("strength", "strong power force mighty") ]

/-- Source: the `descriptions` record inside `getThemeDescription`. -/
def themeDescriptions : List (String × String) :=
  [ ("patience", "Building resilience and endurance through Islamic teachings")
  , ("prayer", "Strengthening your connection with Allah through worship")
  , ("change", "Personal transformation guided by Quranic wisdom")
  , ("family", "Nurturing relationships with Islamic values")
  , ("anxiety", "Finding peace and calm through Islamic practices")
  , ("success", "Achieving goals while maintaining Islamic principles")
  , ("health", "Caring for your body as an amanah (trust) from Allah")
  , ("fitness", "Building physical strength to better serve Allah and community")
  , ("strength", "Developing both physical and spiritual strength through Islamic guidance") ]

/-- The `prayer` entry of `getRecommendedActions` (also the `||` fallback). -/
def recommendedActionsPrayer : List String :=
  ["Maintain 5 daily prayers", "Learn prayer meanings", "Join community prayers"]

/-- Source: the `actions` record inside `getRecommendedActions`. -/
def recommendedActionsTable : List (String × List String) :=
  [ ("patience", ["Practice daily dhikr", "Read stories of the Prophets", "Make dua during challenges"])
  , ("prayer", recommendedActionsPrayer)
  , ("change", ["Set Islamic goals", "Find mentorship", "Track spiritual progress"])
  , ("family", ["Schedule family time", "Teach Islamic values", "Practice forgiveness"])
  , ("anxiety", ["Recite protective verses", "Practice breathing exercises", "Seek community support"])
  , ("success", ["Align goals with values", "Give regular charity", "Seek beneficial knowledge"]) ]

/-- Source: the `guidanceVariations` pool inside `buildSearchQueries`. -/
def guidanceVariations : List String :=
  [ "guidance wisdom help", "guidance success", "guidance strength", "guidance patience"
  , "guidance prayer", "guidance family", "guidance health", "guidance believer"
  , "guidance righteous", "guidance mercy" ]

/-- Source: the stopword list inside `buildSearchQueries`. -/
def stopWords : List String :=
  [ "the", "and", "or", "but", "in", "on", "at", "to", "for", "of", "with", "by", "do"
  , "get", "make", "have", "be", "is", "are", "was", "were", "will", "would", "could"
  , "should", "can", "may", "might", "must", "shall", "a", "an" ]

/-- The `success` entry of `themeVerses` (also the `|| themeVerses.success`
fallback of `getCuratedThemeVerses`). -/
def curatedSuccessRefs : List (ℕ × ℕ) :=
  [(2, 201), (3, 200), (65, 3), (94, 5), (13, 11), (2, 286), (3, 139), (8, 45), (9, 40), (48, 29)]

/-- Source: the `themeVerses` curated-coordinates table inside
`getCuratedThemeVerses` (no `guidance` and no `strength` key). -/
def themeVerses : List (String × List (ℕ × ℕ)) :=
  [ ("prayer", [(2, 43), (11, 114), (29, 45), (4, 103), (17, 78), (20, 14), (2, 238), (31, 17), (70, 23), (87, 15)])
  , ("patience", [(2, 153), (2, 155), (3, 200), (8, 46), (103, 3), (2, 177), (3, 186), (16, 127), (39, 10), (47, 31)])
  , ("success", curatedSuccessRefs)
  , ("change", [(13, 11), (2, 286), (65, 3), (94, 5), (2, 216), (3, 159), (4, 29), (7, 96), (8, 53), (35, 11)])
  , ("family", [(4, 1), (17, 23), (25, 74), (30, 21), (66, 6), (2, 187), (4, 19), (4, 36), (6, 151), (17, 24)])
  , ("health", [(26, 80), (17, 82), (7, 31), (2, 195), (16, 69), (2, 168), (5, 88), (2, 286), (65, 3), (94, 5)])
  , ("fitness", [(22, 78), (29, 69), (3, 139), (2, 195), (8, 46), (94, 5), (2, 286), (103, 3), (65, 3), (13, 11)])
  , ("anxiety", [(2, 286), (13, 28), (65, 3), (94, 5), (113, 1), (2, 255), (3, 8), (7, 200), (16, 98), (41, 44)]) ]

/-! ### Small helper methods of the engine -/

/-- Source: `getThemeSearchTerms` (default `'guidance wisdom'`). -/
def getThemeSearchTerms (theme : String) : String :=
  (tblGet themeSearchTermsTable theme).getD "guidance wisdom"

/-- Source: `getThemeDescription`. -/
def getThemeDescription (theme : String) : String :=
  (tblGet themeDescriptions theme).getD ("Islamic guidance for " ++ theme)

/-- Source: `getRecommendedActions` (default `actions.prayer`). -/
def getRecommendedActions (theme : String) : List String :=
  (tblGet recommendedActionsTable theme).getD recommendedActionsPrayer

/-- Source: `getRelatedHabits` (default `habitMap.prayer`). -/
def getRelatedHabits (theme : String) : List String :=
  (tblGet habitMap theme).getD ["5 daily prayers", "Morning athkar", "Evening dhikr"]

/-- Source: `capitalizeTheme`. -/
def capitalizeTheme (theme : String) : String :=
  match theme.data with
  | [] => ""
  | c :: cs => ⟨c.toUpper :: cs⟩

/-- Source: `CACHE_DURATION = 5 * 60 * 1000` milliseconds. -/
def CACHE_DURATION : ℕ := 5 * 60 * 1000

/-- Source: `isCacheValid` — `expiry ? Date.now() < expiry : false`. -/
def isCacheValid (key : String) (now : ℕ) (st : EngSt) : Bool :=
  match tblGet st.cacheExp key with
  | some expiry => decide (now < expiry)
  | none => false

/-- Source: `generatePracticalSteps`.  `PRACTICAL_GUIDANCE[theme] ||
PRACTICAL_GUIDANCE.guidance` is `undefined` for any unknown theme — the
record has no `guidance` key — so `baseSteps.slice(0, 2)` raises a
`TypeError`, modelled as `Except.error`. -/
def generatePracticalSteps (theme goal : String) : Except Unit (List String) :=
  match (tblGet practicalGuidance theme).orElse (fun _ => tblGet practicalGuidance "guidance") with
  | none => Except.error ()
  | some baseSteps =>
    Except.ok (baseSteps.take 2 ++
      [ "Set a specific timeline for: " ++ goal
      , "Make daily du*a for success in: " ++ goal
      , "Break down \"" ++ goal ++ "\" into smaller, manageable tasks" ])

/-- Source: `generateReflection` — uniformly random choice among the
theme's templates (`guidance` templates as fallback); the `translation`
argument is ignored by the source as well. -/
def generateReflection (rng : ℕ → ℕ) ( _translation theme : String) (st : EngSt) : String × EngSt :=
  let templates := (tblGet reflectionTemplates theme).getD reflectionGuidanceTemplates
  let d := draw rng templates.length st
  (templates.getD d.1 "", d.2)

/-- Source: `generateLifeApplication` (fallback `applications.prayer`). -/
def generateLifeApplication (rng : ℕ → ℕ) ( _translation theme : String) (st : EngSt) : String × EngSt :=
  let options := (tblGet lifeApplications theme).getD applicationPrayerTemplates
  let d := draw rng options.length st
  (options.getD d.1 "", d.2)

/-- Source: `convertAPIVerseToQuranVerse`.  In the typed model the body is
total, so the surrounding `try`/`catch` (which returns `null` on a
malformed record) can never fire; the reflection draw happens before the
life-application draw, as in the source object literal. -/
def convertAPIVerseToQuranVerse (rng : ℕ → ℕ) (resp : RandomVerseResponse) (st : EngSt) :
    QuranVerse × EngSt :=
  let tr := resp.verse.translation.getD ""
  let themeS := jsOrStr resp.theme "guidance"
  let r := generateReflection rng tr themeS st
  let la := generateLifeApplication rng tr themeS r.2
  ({ id := resp.verse.number
   , surah := jsOrStr resp.surah.englishName ("Surah " ++ toString resp.surah.number)
   , surah_number := resp.surah.number
   , ayah := resp.verse.numberInSurah
   , text_ar := resp.verse.text
   , text_en := tr
   , theme := [themeS]
   , reflection := r.1
   , practical_guidance := (tblGet practicalGuidance themeS).map (fun l => l.take 3)
   , context := jsOrStr resp.context ("From " ++ resp.surah.englishName.getD "undefined")
   , life_application := la.1
   , audio := (optTruthy resp.verse.audio).orElse (fun _ => resp.audio) }, la.2)

/-! ### Query building -/

/-- `array.join(' ')`. -/
def joinSp (l : List String) : String :=
  String.intercalate " " l

/-- Worker for `splitCh`. -/
def splitChAux (sep : Char) : List Char → List Char → List String
  | [], acc => [⟨acc.reverse⟩]
  | c :: cs, acc =>
    if c == sep then ⟨acc.reverse⟩ :: splitChAux sep cs []
    else splitChAux sep cs (c :: acc)

/-- JavaScript `s.split(sep)` for a one-character separator (consecutive
separators produce empty fragments, exactly as in JavaScript). -/
def splitCh (sep : Char) (s : String) : List String :=
  splitChAux sep s.data []

/-- JavaScript `s.trim()` (strip leading and trailing whitespace). -/
def jsTrim (s : String) : String :=
  ⟨((s.data.dropWhile Char.isWhitespace).reverse.dropWhile Char.isWhitespace).reverse⟩

/-- Source: `getGoalSpecificTerms` — first matching rule wins, default `''`. -/
def getGoalSpecificTerms (goal theme : String) : String :=
  let goalLower := lowerStr goal
  if theme == "fitness" || theme == "strength" || strIncludes goalLower "fitness" ||
     strIncludes goalLower "exercise" || strIncludes goalLower "workout" ||
     strIncludes goalLower "gym" || strIncludes goalLower "train" then
    "strive effort persevere strong strength"
  else if theme == "health" || strIncludes goalLower "health" ||
     strIncludes goalLower "wellness" || strIncludes goalLower "heal" then
    "cure healing bless good mercy"
  else if theme == "prayer" || strIncludes goalLower "pray" ||
     strIncludes goalLower "worship" || strIncludes goalLower "salah" then
    "prayer worship establish salah remember"
  else if theme == "success" || strIncludes goalLower "success" ||
     strIncludes goalLower "achieve" || strIncludes goalLower "accomplish" then
    "success prosper triumph victory believer"
  else if theme == "family" || strIncludes goalLower "family" ||
     strIncludes goalLower "parent" || strIncludes goalLower "child" ||
     strIncludes goalLower "spouse" then
    "parents children family righteous mercy"
  else if theme == "patience" || strIncludes goalLower "patience" ||
     strIncludes goalLower "wait" || strIncludes goalLower "persever" then
    "patient patience persever endure steadfast"
  else if strIncludes goalLower "study" || strIncludes goalLower "learn" ||
     strIncludes goalLower "read" || strIncludes goalLower "knowledge" then
    "knowledge wisdom understand learn reflect"
  else if strIncludes goalLower "work" || strIncludes goalLower "career" ||
     strIncludes goalLower "job" || strIncludes goalLower "business" then
    "work strive effort provision sustenance"
  else if strIncludes goalLower "relationship" || strIncludes goalLower "friend" ||
     strIncludes goalLower "love" || strIncludes goalLower "kindness" then
    "mercy compassion love kindness righteous"
  else if strIncludes goalLower "change" || strIncludes goalLower "improve" ||
     strIncludes goalLower "better" || strIncludes goalLower "transform" then
    "change believe good righteous repent"
  else ""

/-- First-occurrence deduplication of strings (`Array.from(new Set(...))`). -/
def dedupStrAux : List String → List String → List String
  | _, [] => []
  | seen, q :: qs =>
    if seen.contains q then dedupStrAux seen qs else q :: dedupStrAux (q :: seen) qs

/-- First-occurrence deduplication of strings. -/
def dedupStr (l : List String) : List String :=
  dedupStrAux [] l

/-- Source: `buildSearchQueries` — the numbered tiers 1–9 of the source, the
single random guidance-variation draw, then the blank filter and the
first-occurrence deduplication. -/
def buildSearchQueries (rng : ℕ → ℕ) (goal : String) (keywords : List String)
    (theme : String) (st : EngSt) : List String × EngSt :=
  let q1 : List String := [goal]
  let keyWords := keywords.filter (fun word => !(stopWords.contains word))
  let q2 : List String :=
    if 0 < keyWords.length then
      [ joinSp (keyWords.take 4), joinSp (keyWords.take 3), joinSp (keyWords.take 2)
      , joinSp (keyWords.take 3) ++ " " ++ theme, joinSp (keyWords.take 2) ++ " " ++ theme ]
      ++ (keyWords.take 3).flatMap (fun word => [word, word ++ " " ++ theme])
    else []
  let themeTerms := getThemeSearchTerms theme
  let q3 : List String :=
    if themeTerms ≠ "" ∧ themeTerms ≠ "guidance wisdom" then
      let individualTerms := (splitCh ' ' themeTerms).take 3
      [themeTerms, joinSp individualTerms] ++ individualTerms
    else []
  let goalSpecificTerms := getGoalSpecificTerms goal theme
  let q4 : List String :=
    if goalSpecificTerms ≠ "" then
      let individualGoalTerms := (splitCh ' ' goalSpecificTerms).take 3
      [goalSpecificTerms, joinSp individualGoalTerms] ++ individualGoalTerms
    else []
  let d := draw rng guidanceVariations.length st
  let randomGuidance := guidanceVariations.getD d.1 ""
  let q5 : List String :=
    if theme = "fitness" ∨ theme = "health" then
      ["body strength health care trust", "strive effort persevere"]
    else if theme = "prayer" then
      ["prayer worship establish salah", "remembrance dhikr"]
    else if theme = "family" then
      ["family children parents", "mercy compassion love"]
    else if theme = "success" then
      ["success achievement blessing", "prosper triumph victory"]
    else []
  let queries := q1 ++ q2 ++ q3 ++ q4 ++ [randomGuidance] ++ q5
  let filteredQueries := queries.filter (fun q => q ≠ "" ∧ (jsTrim q).length > 0)
  (dedupStr filteredQueries, d.2)

/-! ### Search aggregation -/

/-- Worker for `distinctByNumber` (first occurrence per raw `number`). -/
def distinctByNumberAux : List ℕ → List APIVerse → List APIVerse
  | _, [] => []
  | seen, v :: vs =>
    if seen.contains v.number then distinctByNumberAux seen vs
    else v :: distinctByNumberAux (v.number :: seen) vs

/-- Source: the local `distinctByNumber` helper of both lookup methods. -/
def distinctByNumber (l : List APIVerse) : List APIVerse :=
  distinctByNumberAux [] l

/-- Source: the sequential query loop shared by `findVersesForGoal`
(`limit = 5`) and `getAdditionalVersesForGoal` (`limit = 10`): each query is
tried once, failures are skipped, results are merged deduplicated by raw
number, and the loop stops early once `limit` raw matches are collected. -/
def searchLoop (env : ApiEnv) (limit : ℕ) :
    List String → List APIVerse → EngSt → List APIVerse × EngSt
  | [], aggregated, st => (aggregated, st)
  | query :: rest, aggregated, st =>
    let st' := { st with apiCalls := st.apiCalls + 1, searchCalls := st.searchCalls + 1 }
    match env.search st.apiCalls query with
    | Except.error _ => searchLoop env limit rest aggregated st'
    | Except.ok res =>
      let aggregated' := distinctByNumber (aggregated ++ res)
      if limit ≤ aggregated'.length then (aggregated', st')
      else searchLoop env limit rest aggregated' st'

/-- The throwaway record `{ text_en: apiVerse.translation || '',
reflection: '' }` that both lookup methods pass to the scorer when ranking
raw matches (the scorer reads only `text_en` and `reflection`). -/
def scoreStub (v : APIVerse) : QuranVerse :=
  { id := 0, surah := "", surah_number := 0, ayah := 0, text_ar := ""
  , text_en := v.translation.getD "", theme := [], reflection := ""
  , practical_guidance := none, context := "", life_application := "", audio := none }

/-- Relevance of a raw match against the goal, as used for ranking. -/
def rawScore (goal : String) (v : APIVerse) : ℚ :=
  calculateRelevanceScore goal (scoreStub v)

/-- `array.slice(a, b)` for `a ≤ b` on natural indices. -/
def jsSlice {α : Type} (l : List α) (a b : ℕ) : List α :=
  (l.drop a).take (b - a)

/-! ### Thematic collection, cache, and curated fallback -/

/-- Conversion loop over search results inside `getThematicCollection`
(approximate surah from the verse number, theme-tagged context). -/
def collectLoop (rng : ℕ → ℕ) (theme : String) :
    List APIVerse → List QuranVerse → EngSt → List QuranVerse × EngSt
  | [], acc, st => (acc, st)
  | v :: vs, acc, st =>
    let c := convertAPIVerseToQuranVerse rng
      { verse := v, surah := { number := v.number / 1000 + 1, englishName := none }
      , theme := some theme, context := some ("Thematic guidance: " ++ theme)
      , audio := none } st
    collectLoop rng theme vs (acc ++ [c.1]) c.2

/-- The per-coordinate fetch loop of `getCuratedThemeVerses`: `getVerse` and
`getSurah` are both issued (`Promise.all`), a failure of either skips the
coordinate (inner `catch` / `continue`). -/
def curatedLoop (env : ApiEnv) (rng : ℕ → ℕ) (theme : String) :
    List (ℕ × ℕ) → List QuranVerse → EngSt → List QuranVerse × EngSt
  | [], acc, st => (acc, st)
  | (s, a) :: rest, acc, st =>
    let rv := env.getVerse st.apiCalls s a
    let rs := env.getSurah (st.apiCalls + 1) s
    let st1 := { st with apiCalls := st.apiCalls + 2 }
    match rv, rs with
    | Except.ok v, Except.ok su =>
      let c := convertAPIVerseToQuranVerse rng
        { verse := v, surah := su, theme := some theme
        , context := some ("Thematic guidance: " ++ theme), audio := none } st1
      curatedLoop env rng theme rest (acc ++ [c.1]) c.2
    | _, _ => curatedLoop env rng theme rest acc st1

/-- Source: `getCuratedThemeVerses` — curated coordinates for the theme
(`themeVerses[theme] || themeVerses.success`; the further array-literal
default in the source is unreachable), shuffled, first 3 fetched. -/
def getCuratedThemeVerses (env : ApiEnv) (rng : ℕ → ℕ) (theme : String) (st : EngSt) :
    List QuranVerse × EngSt :=
  let refs := (tblGet themeVerses theme).getD curatedSuccessRefs
  let shuffled := env.shuffle refs
  curatedLoop env rng theme (shuffled.take 3) [] st

/-- The collection assembly of `getThematicCollection` after a successful
remote search: convert up to 5 results, fall back to the curated store when
none converts, and build the `ThematicCollection` record. -/
def buildCollection (env : ApiEnv) (rng : ℕ → ℕ) (theme : String)
    (searchResults : List APIVerse) (st : EngSt) : ThematicCollection × EngSt :=
  let c := collectLoop rng theme (searchResults.take 5) [] st
  let v :=
    if c.1.length = 0 then
      let cur := getCuratedThemeVerses env rng theme c.2
      (c.1 ++ cur.1, cur.2)
    else c
  ({ theme := capitalizeTheme theme
   , description := getThemeDescription theme
   , verses := v.1
   , practicalGuidance := (tblGet practicalGuidance theme).getD []
   , recommendedActions := getRecommendedActions theme }, v.2)

/-- Source: `getThematicCollection`.  The only fallible step of the body is
the remote search; its failure is absorbed by the method's own `catch`,
which returns `null` — hence the `Except.ok none` in the error branch.  On
a cache miss the assembled collection is always stored and returned. -/
def getThematicCollection (env : ApiEnv) (rng : ℕ → ℕ) (theme : String) (now : ℕ)
    (st : EngSt) : Except Unit (Option ThematicCollection) × EngSt :=
  let cacheKey := "theme_" ++ theme
  if isCacheValid cacheKey now st then (Except.ok (tblGet st.cache cacheKey), st)
  else
    let st' := { st with apiCalls := st.apiCalls + 1, searchCalls := st.searchCalls + 1 }
    match env.search st.apiCalls (getThemeSearchTerms theme) with
    | Except.error _ => (Except.ok none, st')
    | Except.ok searchResults =>
      let bc := buildCollection env rng theme searchResults st'
      (Except.ok (some bc.1),
       { bc.2 with cache := tblPut bc.2.cache cacheKey bc.1
                 , cacheExp := tblPut bc.2.cacheExp cacheKey (now + CACHE_DURATION) })

/-- Source: `getThematicVersesForGoal` — always resolves to a plain list;
its own `catch` absorbs both a failed collection lookup and the
`generatePracticalSteps` `TypeError` (which fires for any theme outside the
`PRACTICAL_GUIDANCE` table, e.g. `guidance`).  The `thematicCalls` bump is
instrumentation marking that the thematic fallback store was consulted. -/
def getThematicVersesForGoal (env : ApiEnv) (rng : ℕ → ℕ) (theme goal : String)
    (now : ℕ) (st : EngSt) : List GoalMatchResult × EngSt :=
  let stIn := { st with thematicCalls := st.thematicCalls + 1 }
  let c := getThematicCollection env rng theme now stIn
  match c.1 with
  | Except.error _ => ([], c.2)
  | Except.ok none => ([], c.2)
  | Except.ok (some collection) =>
    if collection.verses.length = 0 then ([], c.2)
    else
      match generatePracticalSteps theme goal with
      | Except.error _ => ([], c.2)
      | Except.ok steps =>
        ((collection.verses.take 2).map (fun verse =>
          { verse := verse
          , relevanceScore := calculateRelevanceScore goal verse
          , practicalSteps := steps
          , duaRecommendation := tblGet duaRecommendations theme
          , relatedHabits := getRelatedHabits theme }), c.2)

/-! ### `findVersesForGoal` and `getAdditionalVersesForGoal` -/

/-- The alternative-theme retry loop of `findVersesForGoal` (skips the
already-tried theme, returns the first non-empty thematic result, and the
original empty `fallbackResults` when every alternative is empty). -/
def altThemeLoop (env : ApiEnv) (rng : ℕ → ℕ) (goal : String) (now : ℕ) (theme : String) :
    List String → EngSt → Except Unit (List GoalMatchResult) × EngSt
  | [], st => (Except.ok [], st)
  | t :: ts, st =>
    if t = theme then altThemeLoop env rng goal now theme ts st
    else
      let alt := getThematicVersesForGoal env rng t goal now st
      if alt.1.length = 0 then altThemeLoop env rng goal now theme ts alt.2
      else (Except.ok alt.1, alt.2)

/-- The thematic tier of `findVersesForGoal`: primary theme first, then the
ordered alternatives `guidance, success, patience, prayer`. -/
def fallbackTier (env : ApiEnv) (rng : ℕ → ℕ) (theme goal : String) (now : ℕ)
    (st : EngSt) : Except Unit (List GoalMatchResult) × EngSt :=
  let fb := getThematicVersesForGoal env rng theme goal now st
  if fb.1.length = 0 then
    altThemeLoop env rng goal now theme ["guidance", "success", "patience", "prayer"] fb.2
  else (Except.ok fb.1, fb.2)

/-- The direct-search match assembly of `findVersesForGoal` (over
`directResults.slice(0, 1)`, hard-coded theme `guidance`).  Building the
match record evaluates `generatePracticalSteps('guidance', goal)`, whose
`TypeError` propagates (the conversion's random draws have already
happened by then). -/
def buildDirectMatches (rng : ℕ → ℕ) (goal : String) (ds : List APIVerse) (st : EngSt) :
    Except Unit (List GoalMatchResult) × EngSt :=
  match ds.take 1 with
  | [] => (Except.ok [], st)
  | apiVerse :: _ =>
    let c := convertAPIVerseToQuranVerse rng
      { verse := apiVerse
      , surah := { number := apiVerse.number / 1000 + 1, englishName := none }
      , theme := some "guidance"
      , context := some ("Direct search for: " ++ goal)
      , audio := none } st
    match generatePracticalSteps "guidance" goal with
    | Except.error _ => (Except.error (), c.2)
    | Except.ok steps =>
      (Except.ok [ { verse := c.1
                   , relevanceScore := calculateRelevanceScore goal c.1
                   , practicalSteps := steps
                   , duaRecommendation := tblGet duaRecommendations "guidance"
                   , relatedHabits := getRelatedHabits "guidance" } ], c.2)

/-- The match-assembly loop shared by the two lookup methods (convert each
selected raw match, then build the result record; `generatePracticalSteps`
may throw for a theme outside `PRACTICAL_GUIDANCE`). -/
def assembleMatches (rng : ℕ → ℕ) (goal theme ctxPrefix : String) :
    List APIVerse → List GoalMatchResult → EngSt →
    Except Unit (List GoalMatchResult) × EngSt
  | [], acc, st => (Except.ok acc, st)
  | apiVerse :: rest, acc, st =>
    let c := convertAPIVerseToQuranVerse rng
      { verse := apiVerse
      , surah := { number := apiVerse.number / 1000 + 1, englishName := none }
      , theme := some theme
      , context := some (ctxPrefix ++ goal)
      , audio := none } st
    match generatePracticalSteps theme goal with
    | Except.error _ => (Except.error (), c.2)
    | Except.ok steps =>
      assembleMatches rng goal theme ctxPrefix rest
        (acc ++ [ { verse := c.1
                  , relevanceScore := calculateRelevanceScore goal c.1
                  , practicalSteps := steps
                  , duaRecommendation := tblGet duaRecommendations theme
                  , relatedHabits := getRelatedHabits theme } ]) c.2

/-- Body of `findVersesForGoal` (everything inside the outer `try`): query
loop with limit 5; on zero raw matches the direct goal search (its own
inner `try`/`catch` falling through to the thematic tier), otherwise
rank, take the top 1 and assemble. -/
def findVersesBody (env : ApiEnv) (rng : ℕ → ℕ) (goal : String) (now : ℕ) (st : EngSt) :
    Except Unit (List GoalMatchResult) × EngSt :=
  let keywords := extractKeywords goal
  let theme := determineTheme keywords
  let q := buildSearchQueries rng goal keywords theme st
  let s := searchLoop env 5 q.1 [] q.2
  let aggregated := s.1
  let st2 := s.2
  if aggregated.length = 0 then
    let st3 := { st2 with apiCalls := st2.apiCalls + 1, searchCalls := st2.searchCalls + 1 }
    match env.search st2.apiCalls goal with
    | Except.error _ => fallbackTier env rng theme goal now st3
    | Except.ok directResults =>
      if 0 < directResults.length then
        let b := buildDirectMatches rng goal directResults st3
        match b.1 with
        | Except.error _ => fallbackTier env rng theme goal now b.2
        | Except.ok ms =>
          if 0 < ms.length then (Except.ok ms, b.2)
          else fallbackTier env rng theme goal now b.2
      else fallbackTier env rng theme goal now st3
  else
    let sortedResults := (sortDesc (fun v => rawScore goal v) aggregated).take 3
    assembleMatches rng goal theme "Guidance for: " (sortedResults.take 1) [] st2

/-- Source: `findVersesForGoal` — the outer `catch` re-classifies the theme
and serves the thematic fallback, so the method always resolves. -/
def findVersesForGoal (env : ApiEnv) (rng : ℕ → ℕ) (goal : String) (now : ℕ) (st : EngSt) :
    Except Unit (List GoalMatchResult) × EngSt :=
  let r := findVersesBody env rng goal now st
  match r.1 with
  | Except.ok ms => (Except.ok ms, r.2)
  | Except.error _ =>
    let fallbackTheme := determineTheme (extractKeywords goal)
    let fb := getThematicVersesForGoal env rng fallbackTheme goal now r.2
    (Except.ok fb.1, fb.2)

/-- Body of `getAdditionalVersesForGoal` (inside the outer `try`): query
loop with limit 10; zero raw matches go straight to the thematic store;
otherwise rank and assemble the offset window
`slice(currentCount, currentCount + 3)`. -/
def getAdditionalVersesBody (env : ApiEnv) (rng : ℕ → ℕ) (goal : String)
    (currentCount : ℕ) (now : ℕ) (st : EngSt) :
    Except Unit (List GoalMatchResult) × EngSt :=
  let keywords := extractKeywords goal
  let theme := determineTheme keywords
  let q := buildSearchQueries rng goal keywords theme st
  let s := searchLoop env 10 q.1 [] q.2
  if s.1.length = 0 then
    let r := getThematicVersesForGoal env rng theme goal now s.2
    (Except.ok r.1, r.2)
  else
    let sortedResults :=
      jsSlice (sortDesc (fun v => rawScore goal v) s.1) currentCount (currentCount + 3)
    assembleMatches rng goal theme "Additional guidance for: " sortedResults [] s.2

/-- Source: `getAdditionalVersesForGoal` — same outer `catch` as
`findVersesForGoal`. -/
def getAdditionalVersesForGoal (env : ApiEnv) (rng : ℕ → ℕ) (goal : String)
    (currentCount : ℕ) (now : ℕ) (st : EngSt) :
    Except Unit (List GoalMatchResult) × EngSt :=
  let r := getAdditionalVersesBody env rng goal currentCount now st
  match r.1 with
  | Except.ok ms => (Except.ok ms, r.2)
  | Except.error _ =>
    let fallbackTheme := determineTheme (extractKeywords goal)
    let fb := getThematicVersesForGoal env rng fallbackTheme goal now r.2
    (Except.ok fb.1, fb.2)

/-! ### The `handleLoadMore` deduplication of `SmartGuidance.tsx` -/

/-- Source: the duplicate filter of `handleLoadMore` — membership in the
`Set` of `` `${surah_number}:${ayah}` `` strings coincides with equality of
the coordinate pairs, since the decimal rendering of a pair of naturals
separated by `:` is injective. -/
def filterNewGuidance (existing additional : List GoalMatchResult) : List GoalMatchResult :=
  let existingIds := existing.map (fun g => g.verse.id)
  let existingSurahAyah := existing.map (fun g => (g.verse.surah_number, g.verse.ayah))
  additional.filter (fun m =>
    !(existingIds.contains m.verse.id) &&
    !(existingSurahAyah.contains (m.verse.surah_number, m.verse.ayah)))

/-! ### Decidable equality for engine results -/

/-- Decidable equality of engine call results. -/
instance {α : Type} [DecidableEq α] : DecidableEq (Except Unit α) := fun a b =>
  match a, b with
  | Except.ok x, Except.ok y =>
    if h : x = y then isTrue (by rw [h]) else isFalse (fun hc => by cases hc; exact h rfl)
  | Except.ok _, Except.error _ => isFalse (fun hc => by cases hc)
  | Except.error _, Except.ok _ => isFalse (fun hc => by cases hc)
  | Except.error a, Except.error b => isTrue (by cases a; cases b; rfl)

/-! ### Observations of engine results (used in the theorems below) -/

/-- Raw verse ids of a resolved result list (empty for a rejected call). -/
def resIds (r : Except Unit (List GoalMatchResult) × EngSt) : List ℕ :=
  match r.1 with
  | Except.ok l => l.map (fun m => m.verse.id)
  | Except.error _ => []

/-- `(surah_number, ayah)` coordinates of a resolved result list. -/
def resCoords (r : Except Unit (List GoalMatchResult) × EngSt) : List (ℕ × ℕ) :=
  match r.1 with
  | Except.ok l => l.map (fun m => (m.verse.surah_number, m.verse.ayah))
  | Except.error _ => []

/-- Relevance scores of a resolved result list. -/
def resScores (r : Except Unit (List GoalMatchResult) × EngSt) : List ℚ :=
  match r.1 with
  | Except.ok l => l.map (fun m => m.relevanceScore)
  | Except.error _ => []

/-- Reflection texts of a resolved result list. -/
def resReflections (r : Except Unit (List GoalMatchResult) × EngSt) : List String :=
  match r.1 with
  | Except.ok l => l.map (fun m => m.verse.reflection)
  | Except.error _ => []

/-- Number of results of a resolved call (`0` for a rejected one). -/
def resLen (r : Except Unit (List GoalMatchResult) × EngSt) : ℕ :=
  match r.1 with
  | Except.ok l => l.length
  | Except.error _ => 0

/-- Whether a `getThematicCollection` result resolved with a collection. -/
def okSomeB {α : Type} : Except Unit (Option α) → Bool
  | Except.ok (some _) => true
  | _ => false

/-! ### Claim-side definitions (phrased from the specification's wording,
to be compared with the engine definitions above) -/

/-- The token sequence of a passage as scored: the translated text plus the
reflection (spec §4.5 step 1). -/
def verseTokens (verse : QuranVerse) : List String :=
  extractKeywords (verse.text_en ++ " " ++ verse.reflection)

/-- Claim-side count `E`: goal tokens appearing verbatim among the tokens of
the passage's translated text plus reflection. -/
def exactCount (goal : String) (verse : QuranVerse) : ℕ :=
  ((extractKeywords goal).filter fun w => decide (w ∈ verseTokens verse)).length

/-- Claim-side loose overlap of two tokens: one is a substring of the other. -/
def subOverlap (w vw : String) : Prop :=
  strIncludes vw w = true ∨ strIncludes w vw = true

instance (w vw : String) : Decidable (subOverlap w vw) := by
  unfold subOverlap
  exact inferInstance

/-- Claim-side count `P`: goal tokens that are a substring of, or contain,
some passage token. -/
def looseCount (goal : String) (verse : QuranVerse) : ℕ :=
  ((extractKeywords goal).filter fun w =>
    decide (∃ vw ∈ verseTokens verse, subOverlap w vw)).length

/-- Claim-side count `S`: goal tokens whose semantic-expansion list contains
a word that substring-matches some passage token (at most one per goal
token). -/
def semCount (goal : String) (verse : QuranVerse) : ℕ :=
  ((extractKeywords goal).filter fun w =>
    decide (∃ rw ∈ (tblGet semanticMap w).getD [], ∃ vw ∈ verseTokens verse, subOverlap rw vw)).length

/-- The scored themes in registration order, paired with their scores. -/
def themeScoreEntries (ks : List String) : List (String × ℚ) :=
  themeOrder.map (fun t => (t, themeScore t ks))

/-- Claim-side selection: the element with the strictly highest key; on a
tie the earlier element wins. -/
def firstMaxFold {α : Type} (key : α → ℚ) : Option α → List α → Option α
  | b, [] => b
  | b, x :: l =>
    firstMaxFold key
      (match b with
       | none => some x
       | some y => if key y < key x then some x else some y) l

/-- Claim-side theme classification: the theme with the strictly highest
accumulated score, ties broken by registration order; `guidance` when every
theme's score is zero. -/
def bestThemeSpec (ks : List String) : String :=
  if ∀ p ∈ themeScoreEntries ks, p.2 = 0 then "guidance"
  else
    match firstMaxFold Prod.snd none (themeScoreEntries ks) with
    | some p => p.1
    | none => "guidance"

/-! ### Concrete scenario artifacts (used by counterexamples and witnesses) -/

/-- The constant-zero randomness stream. -/
def rngZero : ℕ → ℕ := fun _ => 0

/-- The constant-two randomness stream. -/
def rngTwo : ℕ → ℕ := fun _ => 2

/-- A raw verse with id 1001 and a present but empty translation. -/
def vC4 : APIVerse :=
  { number := 1001, numberInSurah := 7, text := "", translation := some "", audio := none }

/-- Remote behaviour for the C4 scenario: every query of the built list
(three queries, call indices 0–2) returns no results, the direct goal
search (call index 3) returns one verse, and coordinate lookups fail. -/
def envC4 : ApiEnv :=
  { search := fun i _ => if i = 3 then Except.ok [vC4] else Except.ok []
  , getVerse := fun _ _ _ => Except.error ()
  , getSurah := fun _ _ => Except.error ()
  , shuffle := fun l => l }

/-- A raw verse with id 2153 and an empty translation. -/
def vPat : APIVerse :=
  { number := 2153, numberInSurah := 153, text := "", translation := some "", audio := none }

/-- Remote behaviour for the C5 and C7 scenarios: every search returns the
single verse `vPat`; coordinate lookups fail. -/
def envPat : ApiEnv :=
  { search := fun _ _ => Except.ok [vPat]
  , getVerse := fun _ _ _ => Except.error ()
  , getSurah := fun _ _ => Except.error ()
  , shuffle := fun l => l }

/-- Raw verse id 1001 for the C6 session. -/
def vX : APIVerse :=
  { number := 1001, numberInSurah := 7, text := "", translation := some "", audio := none }

/-- Raw verse id 2002 for the C6 session. -/
def vY : APIVerse :=
  { number := 2002, numberInSurah := 9, text := "", translation := some "", audio := none }

/-- Remote behaviour for the C6 session: the randomly chosen guidance
variation of the first call returns `[vX]`, the one of the second call
returns `[vY, vX]`, and every other query returns nothing. -/
def envSession : ApiEnv :=
  { search := fun _ q =>
      if q = "guidance wisdom help" then Except.ok [vX]
      else if q = "guidance strength" then Except.ok [vY, vX]
      else Except.ok []
  , getVerse := fun _ _ _ => Except.error ()
  , getSurah := fun _ _ => Except.error ()
  , shuffle := fun l => l }

/-- Randomness for the C6 session: the first call draws guidance variation
0, the second call (cursor 3 after the three draws of the first) draws
variation 2. -/
def rngSession : ℕ → ℕ := fun i => if i = 3 then 2 else 0

/-- A converted verse whose translated text is the word `patience`. -/
def vW1 : QuranVerse :=
  { id := 1, surah := "", surah_number := 1, ayah := 1, text_ar := "", text_en := "patience"
  , theme := [], reflection := "", practical_guidance := none, context := ""
  , life_application := "", audio := none }

/-- The same converted verse under a different id. -/
def vW2 : QuranVerse :=
  { vW1 with id := 2 }

/-- A minimal match result around a given verse. -/
def gmr (v : QuranVerse) : GoalMatchResult :=
  { verse := v, relevanceScore := 0, practicalSteps := [], duaRecommendation := none
  , relatedHabits := [] }

/-- A match result whose verse coordinates differ from `vW1`'s. -/
def mW : GoalMatchResult :=
  gmr { vW1 with id := 3, ayah := 2 }

/-! ### Basic lemmas -/

theorem bool_eq_of_iff {a b : Bool} (h : a = true ↔ b = true) : a = b := by
  cases a <;> cases b <;> simp_all

theorem chPre_refl (l : List Char) : chPre l l = true := by
  induction l with
  | nil => rfl
  | cons c cs ih => simp [chPre, ih]

theorem chSub_refl (l : List Char) : chSub l l = true := by
  cases l with
  | nil => rfl
  | cons c cs => simp [chSub, chPre_refl]

theorem strIncludes_self (s : String) : strIncludes s s = true :=
  chSub_refl s.data

/-! ### The `divInt`-based operations agree with the standard ones -/

theorem den_int_nz (a : ℚ) : ((a.den : ℤ)) ≠ 0 :=
  Int.natCast_ne_zero.mpr a.den_nz

theorem qAdd_eq (a b : ℚ) : qAdd a b = a + b := by
  conv_rhs => rw [← Rat.num_divInt_den a, ← Rat.num_divInt_den b]
  rw [Rat.divInt_add_divInt _ _ (den_int_nz a) (den_int_nz b)]
  rfl

theorem qNeg_eq (a : ℚ) : qNeg a = -a := by
  conv_rhs => rw [← Rat.num_divInt_den a]
  rw [Rat.neg_divInt]
  rfl

theorem qSub_eq (a b : ℚ) : qSub a b = a - b := by
  rw [qSub, qAdd_eq, qNeg_eq, sub_eq_add_neg]

theorem qMul_eq (a b : ℚ) : qMul a b = a * b := by
  conv_rhs => rw [← Rat.num_divInt_den a, ← Rat.num_divInt_den b]
  rw [Rat.divInt_mul_divInt _ _ (den_int_nz a) (den_int_nz b)]
  rfl

theorem qInv_eq (a : ℚ) : qInv a = a⁻¹ := by
  rw [Rat.inv_def']
  rfl

theorem qDiv_eq (a b : ℚ) : qDiv a b = a / b := by
  rw [qDiv, qMul_eq, qInv_eq, div_eq_mul_inv]

theorem qLtB_eq (a b : ℚ) : qLtB a b = decide (a < b) := by
  exact decide_eq_decide.mpr Rat.lt_def.symm

theorem qLeB_eq (a b : ℚ) : qLeB a b = decide (a ≤ b) := by
  exact decide_eq_decide.mpr Rat.le_def.symm

theorem qMin_eq (a b : ℚ) : qMin a b = min a b := by
  rw [qMin, qLeB_eq, min_def]
  by_cases h : a ≤ b <;> simp [h]

theorem qMax_eq (a b : ℚ) : qMax a b = max a b := by
  rw [qMax, qLeB_eq, max_def]
  by_cases h : a ≤ b <;> simp [h]

theorem mkRat_half : (mkRat 1 2 : ℚ) = 1/2 := by
  rw [Rat.mkRat_eq_divInt, Rat.divInt_eq_div]
  norm_num

theorem mkRat_seven_tenths : (mkRat 7 10 : ℚ) = 7/10 := by
  rw [Rat.mkRat_eq_divInt, Rat.divInt_eq_div]
  norm_num

theorem mkRat_cap : (mkRat 19 20 : ℚ) = 19/20 := by
  rw [Rat.mkRat_eq_divInt, Rat.divInt_eq_div]
  norm_num

/-! ### Characterisation of the relevance scorer -/

theorem exact_filter_eq (goal : String) (verse : QuranVerse) :
    (extractKeywords goal).filter
        (fun word => (verseTokens verse).any fun vw => vw == word)
      = (extractKeywords goal).filter (fun w => decide (w ∈ verseTokens verse)) := by
  apply List.filter_congr
  intro w _
  apply bool_eq_of_iff
  simp only [List.any_eq_true, beq_iff_eq, decide_eq_true_eq]
  constructor
  · rintro ⟨vw, hvw, rfl⟩
    exact hvw
  · intro h
    exact ⟨w, h, rfl⟩

theorem loose_filter_eq (goal : String) (verse : QuranVerse) :
    (extractKeywords goal).filter
        (fun word => (verseTokens verse).any fun vw =>
          strIncludes vw word || strIncludes word vw)
      = (extractKeywords goal).filter
          (fun w => decide (∃ vw ∈ verseTokens verse, subOverlap w vw)) := by
  apply List.filter_congr
  intro w _
  apply bool_eq_of_iff
  simp [List.any_eq_true, subOverlap]

theorem foldl_count {α : Type} (p : α → Bool) (l : List α) (n : ℕ) :
    l.foldl (fun n x => if p x then n + 1 else n) n = n + (l.filter p).length := by
  induction l generalizing n with
  | nil => simp
  | cons x xs ih =>
    by_cases h : p x
    · simp [List.filter, h, ih]
      omega
    · simp [List.filter, h, ih]

theorem sem_count_eq (goal : String) (verse : QuranVerse) :
    calculateSemanticMatches (extractKeywords goal) (verseTokens verse)
      = semCount goal verse := by
  unfold calculateSemanticMatches semCount
  rw [foldl_count]
  simp only [Nat.zero_add]
  congr 1
  apply List.filter_congr
  intro w _
  apply bool_eq_of_iff
  simp [List.any_eq_true, subOverlap]

theorem calcScore_eq (goal : String) (verse : QuranVerse) :
    calculateRelevanceScore goal verse =
      min (19/20)
        (((exactCount goal verse : ℚ) * 1 +
          ((looseCount goal verse : ℚ) - (exactCount goal verse : ℚ)) * (7/10) +
          (semCount goal verse : ℚ) * (1/2)) /
         max 1 ((extractKeywords goal).length : ℚ)) := by
  unfold calculateRelevanceScore
  simp only [qMin_eq, qDiv_eq, qMax_eq, qAdd_eq, qMul_eq, qSub_eq,
    mkRat_half, mkRat_seven_tenths, mkRat_cap]
  rw [show (extractKeywords (verse.text_en ++ " " ++ verse.reflection)) = verseTokens verse from rfl,
    exact_filter_eq, loose_filter_eq, sem_count_eq]
  rw [max_comm]
  simp only [mul_one]
  rfl

/-! ### Bounds support for the scorer -/

theorem exactCount_le_looseCount (goal : String) (verse : QuranVerse) :
    exactCount goal verse ≤ looseCount goal verse := by
  unfold exactCount looseCount
  apply List.Sublist.length_le
  apply List.monotone_filter_right
  intro w hw
  rw [decide_eq_true_eq] at hw ⊢
  exact ⟨w, hw, Or.inl (strIncludes_self w)⟩

/-! ### Theme-classifier support -/

theorem synScore_nonneg (t k : String) : 0 ≤ synScore t k := by
  unfold synScore
  split <;> norm_num

theorem guidScore_nonneg (t k : String) : 0 ≤ guidScore t k := by
  unfold guidScore
  split
  · rw [mkRat_half]
    norm_num
  · exact le_rfl

theorem themeScore_std (t : String) (ks : List String) :
    themeScore t ks = ks.foldl (fun acc k => acc + synScore t k + guidScore t k) 0 := by
  unfold themeScore
  congr 1
  funext acc k
  rw [qAdd_eq, qAdd_eq]

theorem themeScore_nonneg (t : String) (ks : List String) : 0 ≤ themeScore t ks := by
  rw [themeScore_std]
  suffices h : ∀ (l : List String) (a : ℚ), 0 ≤ a →
      0 ≤ l.foldl (fun acc k => acc + synScore t k + guidScore t k) a by
    exact h ks 0 le_rfl
  intro l
  induction l with
  | nil =>
    intro a ha
    simpa using ha
  | cons k rest ih =>
    intro a ha
    exact ih _ (add_nonneg (add_nonneg ha (synScore_nonneg t k)) (guidScore_nonneg t k))

theorem firstMaxFold_cons {α : Type} (key : α → ℚ) (b : Option α) (x : α) (l : List α) :
    firstMaxFold key b (x :: l) = firstMaxFold key
      (match b with
       | none => some x
       | some y => if key y < key x then some x else some y) l := rfl

theorem firstMaxFold_cons_none {α : Type} (key : α → ℚ) (x : α) (l : List α) :
    firstMaxFold key none (x :: l) = firstMaxFold key (some x) l := rfl

theorem firstMaxFold_cons_some {α : Type} (key : α → ℚ) (y x : α) (l : List α) :
    firstMaxFold key (some y) (x :: l)
      = firstMaxFold key (if key y < key x then some x else some y) l := rfl

theorem insDesc_head {α : Type} (key : α → ℚ) (x : α) (s : List α) :
    (insDesc key x s).head? = some (match s.head? with
      | none => x
      | some y => if key y < key x then x else y) := by
  cases s with
  | nil => rfl
  | cons y ys =>
    unfold insDesc
    rw [qLtB_eq]
    by_cases h : key y < key x <;> simp [h]

theorem sortDesc_foldl_head {α : Type} (key : α → ℚ) :
    ∀ (l acc : List α),
      (l.foldl (fun a x => insDesc key x a) acc).head? = firstMaxFold key acc.head? l := by
  intro l
  induction l with
  | nil =>
    intro acc
    rfl
  | cons x xs ih =>
    intro acc
    rw [List.foldl_cons, ih, insDesc_head]
    conv_rhs => rw [firstMaxFold_cons]
    congr 1
    cases acc.head? with
    | none => rfl
    | some y => by_cases hk : key y < key x <;> simp [hk]

theorem sortDesc_head {α : Type} (key : α → ℚ) (l : List α) :
    (sortDesc key l).head? = firstMaxFold key none l :=
  sortDesc_foldl_head key l []

theorem firstMaxFold_some {α : Type} (key : α → ℚ) :
    ∀ (l : List α) (y : α), ∃ z, firstMaxFold key (some y) l = some z := by
  intro l
  induction l with
  | nil =>
    intro y
    exact ⟨y, rfl⟩
  | cons x xs ih =>
    intro y
    rw [firstMaxFold_cons_some]
    by_cases h : key y < key x
    · simpa [h] using ih x
    · simpa [h] using ih y

theorem fmf_filter_pos_acc {α : Type} (key : α → ℚ) :
    ∀ (l : List α) (y : α), 0 < key y → (∀ x ∈ l, 0 ≤ key x) →
      firstMaxFold key (some y) (l.filter fun x => qLtB 0 (key x))
        = firstMaxFold key (some y) l := by
  intro l
  induction l with
  | nil =>
    intro y _ _
    rfl
  | cons x xs ih =>
    intro y hy hall
    have hx0 : 0 ≤ key x := hall x (List.mem_cons_self x xs)
    have hrest : ∀ z ∈ xs, 0 ≤ key z := fun z hz => hall z (List.mem_cons_of_mem _ hz)
    rw [List.filter_cons]
    by_cases hx : 0 < key x
    · have hb : (qLtB 0 (key x)) = true := by
        rw [qLtB_eq]
        exact decide_eq_true hx
      rw [if_pos hb, firstMaxFold_cons_some, firstMaxFold_cons_some]
      by_cases h : key y < key x
      · simp only [h, if_true]
        exact ih x hx hrest
      · simp only [h, if_false]
        exact ih y hy hrest
    · have hxz : key x = 0 := le_antisymm (not_lt.mp hx) hx0
      have hb : (qLtB 0 (key x)) = false := by
        rw [qLtB_eq]
        simpa using hx
      rw [if_neg (by simp [hb]), firstMaxFold_cons_some]
      have h : ¬ key y < key x := by
        rw [hxz]
        exact not_lt.mpr hy.le
      simp only [h, if_false]
      exact ih y hy hrest

theorem fmf_filter_zero_acc {α : Type} (key : α → ℚ) :
    ∀ (l : List α) (y : α), key y = 0 → (∀ x ∈ l, 0 ≤ key x) →
      (∃ x ∈ l, 0 < key x) →
      firstMaxFold key none (l.filter fun x => qLtB 0 (key x))
        = firstMaxFold key (some y) l := by
  intro l
  induction l with
  | nil =>
    intro y _ _ hex
    obtain ⟨x, hx, _⟩ := hex
    exact absurd hx (List.not_mem_nil x)
  | cons x xs ih =>
    intro y hy hall hex
    have hx0 : 0 ≤ key x := hall x (List.mem_cons_self x xs)
    have hrest : ∀ z ∈ xs, 0 ≤ key z := fun z hz => hall z (List.mem_cons_of_mem _ hz)
    rw [List.filter_cons]
    by_cases hx : 0 < key x
    · have hb : (qLtB 0 (key x)) = true := by
        rw [qLtB_eq]
        exact decide_eq_true hx
      rw [if_pos hb, firstMaxFold_cons_none, firstMaxFold_cons_some]
      have h : key y < key x := by
        rw [hy]
        exact hx
      simp only [h, if_true]
      exact fmf_filter_pos_acc key xs x hx hrest
  /- the remaining case: `key x = 0` -/
    · have hxz : key x = 0 := le_antisymm (not_lt.mp hx) hx0
      have hb : (qLtB 0 (key x)) = false := by
        rw [qLtB_eq]
        simpa using hx
      rw [if_neg (by simp [hb]), firstMaxFold_cons_some]
      have h : ¬ key y < key x := by
        rw [hy, hxz]
        exact lt_irrefl 0
      simp only [h, if_false]
      apply ih y hy hrest
      obtain ⟨z, hz, hzpos⟩ := hex
      rcases List.mem_cons.mp hz with rfl | hz'
      · exact absurd hzpos (by rw [hxz]; exact lt_irrefl 0)
      · exact ⟨z, hz', hzpos⟩

theorem fmf_filter_none {α : Type} (key : α → ℚ) :
    ∀ (l : List α), (∀ x ∈ l, 0 ≤ key x) → (∃ x ∈ l, 0 < key x) →
      firstMaxFold key none (l.filter fun x => qLtB 0 (key x))
        = firstMaxFold key none l := by
  intro l
  cases l with
  | nil =>
    intro _ hex
    obtain ⟨x, hx, _⟩ := hex
    exact absurd hx (List.not_mem_nil x)
  | cons x xs =>
    intro hall hex
    have hx0 : 0 ≤ key x := hall x (List.mem_cons_self x xs)
    have hrest : ∀ z ∈ xs, 0 ≤ key z := fun z hz => hall z (List.mem_cons_of_mem _ hz)
    rw [List.filter_cons]
    by_cases hx : 0 < key x
    · have hb : (qLtB 0 (key x)) = true := by
        rw [qLtB_eq]
        exact decide_eq_true hx
      rw [if_pos hb, firstMaxFold_cons_none, firstMaxFold_cons_none]
      exact fmf_filter_pos_acc key xs x hx hrest
    · have hxz : key x = 0 := le_antisymm (not_lt.mp hx) hx0
      have hb : (qLtB 0 (key x)) = false := by
        rw [qLtB_eq]
        simpa using hx
      rw [if_neg (by simp [hb]), firstMaxFold_cons_none]
      apply fmf_filter_zero_acc key xs x hxz hrest
      obtain ⟨z, hz, hzpos⟩ := hex
      rcases List.mem_cons.mp hz with rfl | hz'
      · exact absurd hzpos (by rw [hxz]; exact lt_irrefl 0)
      · exact ⟨z, hz', hzpos⟩

/-! ### Totality of the public methods (support for C2) -/

theorem getThematicCollection_isOk (env : ApiEnv) (rng : ℕ → ℕ) (theme : String)
    (now : ℕ) (st : EngSt) : (getThematicCollection env rng theme now st).1.isOk = true := by
  by_cases h : isCacheValid ("theme_" ++ theme) now st = true <;>
    cases hs : env.search st.apiCalls (getThemeSearchTerms theme) <;>
      simp [getThematicCollection, h, hs, Except.isOk, Except.toBool]

theorem findVersesForGoal_isOk (env : ApiEnv) (rng : ℕ → ℕ) (goal : String)
    (now : ℕ) (st : EngSt) : (findVersesForGoal env rng goal now st).1.isOk = true := by
  cases h : (findVersesBody env rng goal now st).1 <;>
    simp [findVersesForGoal, h, Except.isOk, Except.toBool]

theorem getAdditionalVersesForGoal_isOk (env : ApiEnv) (rng : ℕ → ℕ) (goal : String)
    (currentCount now : ℕ) (st : EngSt) :
    (getAdditionalVersesForGoal env rng goal currentCount now st).1.isOk = true := by
  cases h : (getAdditionalVersesBody env rng goal currentCount now st).1 <;>
    simp [getAdditionalVersesForGoal, h, Except.isOk, Except.toBool]

/-! ### Result-window bounds (support for C10) -/

theorem resLen_le_of_ok {r : Except Unit (List GoalMatchResult) × EngSt}
    {ms : List GoalMatchResult} {n : ℕ} (hr : resLen r ≤ n) (heq : r.1 = Except.ok ms) :
    ms.length ≤ n := by
  unfold resLen at hr
  rw [heq] at hr
  exact hr

theorem assembleMatches_len (rng : ℕ → ℕ) (goal theme cp : String) :
    ∀ (l : List APIVerse) (acc : List GoalMatchResult) (st : EngSt),
      resLen (assembleMatches rng goal theme cp l acc st) ≤ acc.length + l.length := by
  intro l
  induction l with
  | nil =>
    intro acc st
    simp [assembleMatches, resLen]
  | cons v vs ih =>
    intro acc st
    simp only [assembleMatches]
    cases hps : generatePracticalSteps theme goal with
    | error e =>
      simp [hps, resLen]
    | ok steps =>
      simp only [hps]
      refine le_trans (ih _ _) ?_
      simp only [List.length_append, List.length_cons, List.length_nil]
      omega

theorem getThematicVersesForGoal_len (env : ApiEnv) (rng : ℕ → ℕ) (theme goal : String)
    (now : ℕ) (st : EngSt) :
    (getThematicVersesForGoal env rng theme goal now st).1.length ≤ 2 := by
  unfold getThematicVersesForGoal
  cases hc : (getThematicCollection env rng theme now
      { st with thematicCalls := st.thematicCalls + 1 }).1 with
  | error e => simp [hc]
  | ok o =>
    cases o with
    | none => simp [hc]
    | some collection =>
      simp only [hc]
      split
      · simp
      · cases hps : generatePracticalSteps theme goal with
        | error e => simp [hps]
        | ok steps =>
          simp only [hps, List.length_map]
          exact List.length_take_le _ _

theorem altThemeLoop_len (env : ApiEnv) (rng : ℕ → ℕ) (goal : String) (now : ℕ)
    (theme : String) :
    ∀ (ts : List String) (st : EngSt),
      resLen (altThemeLoop env rng goal now theme ts st) ≤ 2 := by
  intro ts
  induction ts with
  | nil =>
    intro st
    simp [altThemeLoop, resLen]
  | cons t rest ih =>
    intro st
    simp only [altThemeLoop]
    split
    · exact ih st
    · split
      · exact ih _
      · simpa [resLen] using getThematicVersesForGoal_len env rng t goal now st

theorem fallbackTier_len (env : ApiEnv) (rng : ℕ → ℕ) (theme goal : String) (now : ℕ)
    (st : EngSt) : resLen (fallbackTier env rng theme goal now st) ≤ 2 := by
  unfold fallbackTier
  simp only []
  split
  · exact altThemeLoop_len env rng goal now theme _ _
  · simpa [resLen] using getThematicVersesForGoal_len env rng theme goal now st

theorem buildDirectMatches_len (rng : ℕ → ℕ) (goal : String) (ds : List APIVerse)
    (st : EngSt) : resLen (buildDirectMatches rng goal ds st) ≤ 1 := by
  unfold buildDirectMatches
  split
  · simp [resLen]
  · split <;> simp [resLen]

theorem findVersesBody_len (env : ApiEnv) (rng : ℕ → ℕ) (goal : String) (now : ℕ)
    (st : EngSt) : resLen (findVersesBody env rng goal now st) ≤ 2 := by
  unfold findVersesBody
  simp only []
  split
  · split
    · exact fallbackTier_len _ _ _ _ _ _
    · split
      · split
        · exact fallbackTier_len _ _ _ _ _ _
        · split
          · next ms heq _ =>
            have h2 := resLen_le_of_ok (buildDirectMatches_len rng goal _ _) heq
            simp only [resLen]
            omega
          · exact fallbackTier_len _ _ _ _ _ _
      · exact fallbackTier_len _ _ _ _ _ _
  · calc resLen _ ≤ [].length + _ := assembleMatches_len rng goal _ _ _ [] _
      _ ≤ 2 := by simp [List.length_take]

theorem findVersesForGoal_len (env : ApiEnv) (rng : ℕ → ℕ) (goal : String) (now : ℕ)
    (st : EngSt) : resLen (findVersesForGoal env rng goal now st) ≤ 2 := by
  unfold findVersesForGoal
  simp only []
  split
  · next ms heq =>
    have h2 := resLen_le_of_ok (findVersesBody_len env rng goal now st) heq
    simp only [resLen]
    omega
  · simpa [resLen] using getThematicVersesForGoal_len env rng _ goal now _

/-! ### Cache behaviour (support for C7) -/

theorem tblGet_tblPut_self {α : Type} :
    ∀ (l : List (String × α)) (k : String) (v : α), tblGet (tblPut l k v) k = some v := by
  intro l
  induction l with
  | nil =>
    intro k v
    simp [tblPut, tblGet]
  | cons p t ih =>
    intro k v
    by_cases h : p.1 = k
    · simp [tblPut, tblGet, h]
    · simp [tblPut, tblGet, h, ih]

theorem convert_st (rng : ℕ → ℕ) (resp : RandomVerseResponse) (st : EngSt) :
    (convertAPIVerseToQuranVerse rng resp st).2 = { st with rix := st.rix + 1 + 1 } := rfl

theorem collectLoop_preserves (rng : ℕ → ℕ) (theme : String) :
    ∀ (l : List APIVerse) (acc : List QuranVerse) (st : EngSt),
      (collectLoop rng theme l acc st).2.cache = st.cache ∧
      (collectLoop rng theme l acc st).2.cacheExp = st.cacheExp ∧
      (collectLoop rng theme l acc st).2.searchCalls = st.searchCalls := by
  intro l
  induction l with
  | nil =>
    intro acc st
    exact ⟨rfl, rfl, rfl⟩
  | cons v vs ih =>
    intro acc st
    simp only [collectLoop, convert_st]
    exact ih _ _

theorem curatedLoop_preserves (env : ApiEnv) (rng : ℕ → ℕ) (theme : String) :
    ∀ (l : List (ℕ × ℕ)) (acc : List QuranVerse) (st : EngSt),
      (curatedLoop env rng theme l acc st).2.cache = st.cache ∧
      (curatedLoop env rng theme l acc st).2.cacheExp = st.cacheExp ∧
      (curatedLoop env rng theme l acc st).2.searchCalls = st.searchCalls := by
  intro l
  induction l with
  | nil =>
    intro acc st
    exact ⟨rfl, rfl, rfl⟩
  | cons c cs ih =>
    intro acc st
    simp only [curatedLoop]
    split
    · simp only [convert_st]
      exact ih _ _
    · exact ih _ _

theorem buildCollection_preserves (env : ApiEnv) (rng : ℕ → ℕ) (theme : String)
    (rs : List APIVerse) (st : EngSt) :
    (buildCollection env rng theme rs st).2.cache = st.cache ∧
    (buildCollection env rng theme rs st).2.cacheExp = st.cacheExp ∧
    (buildCollection env rng theme rs st).2.searchCalls = st.searchCalls := by
  unfold buildCollection getCuratedThemeVerses
  simp only []
  split
  · obtain ⟨h1, h2, h3⟩ := collectLoop_preserves rng theme (rs.take 5) [] st
    obtain ⟨g1, g2, g3⟩ := curatedLoop_preserves env rng theme _ [] (collectLoop rng theme (rs.take 5) [] st).2
    exact ⟨g1.trans h1, g2.trans h2, g3.trans h3⟩
  · exact collectLoop_preserves rng theme (rs.take 5) [] st

theorem gtc_hit (env : ApiEnv) (rng : ℕ → ℕ) (theme : String) (now : ℕ) (st : EngSt)
    (hhit : isCacheValid ("theme_" ++ theme) now st = true) :
    getThematicCollection env rng theme now st
      = (Except.ok (tblGet st.cache ("theme_" ++ theme)), st) := by
  simp [getThematicCollection, hhit]

theorem gtc_miss_err (env : ApiEnv) (rng : ℕ → ℕ) (theme : String) (now : ℕ) (st : EngSt)
    (e : Unit)
    (hmiss : isCacheValid ("theme_" ++ theme) now st = false)
    (herr : env.search st.apiCalls (getThemeSearchTerms theme) = Except.error e) :
    (getThematicCollection env rng theme now st).1 = Except.ok none := by
  simp [getThematicCollection, hmiss, herr]

theorem gtc_miss_store (env : ApiEnv) (rng : ℕ → ℕ) (theme : String) (now : ℕ) (st : EngSt)
    (rs : List APIVerse)
    (hmiss : isCacheValid ("theme_" ++ theme) now st = false)
    (hok : env.search st.apiCalls (getThemeSearchTerms theme) = Except.ok rs) :
    tblGet (getThematicCollection env rng theme now st).2.cacheExp ("theme_" ++ theme)
        = some (now + CACHE_DURATION) ∧
    (getThematicCollection env rng theme now st).1
        = Except.ok (tblGet (getThematicCollection env rng theme now st).2.cache
            ("theme_" ++ theme)) := by
  simp [getThematicCollection, hmiss, hok, tblGet_tblPut_self]

theorem gtc_miss_searchCalls (env : ApiEnv) (rng : ℕ → ℕ) (theme : String) (now : ℕ)
    (st : EngSt)
    (hmiss : isCacheValid ("theme_" ++ theme) now st = false) :
    (getThematicCollection env rng theme now st).2.searchCalls = st.searchCalls + 1 := by
  cases hs : env.search st.apiCalls (getThemeSearchTerms theme) with
  | error e => simp [getThematicCollection, hmiss, hs]
  | ok rs =>
    simp only [getThematicCollection, hmiss, Bool.false_eq_true, if_false, hs]
    exact (buildCollection_preserves env rng theme rs _).2.2

/-! ### Claim C1 -/

/-- C1: for every goal text and every verse record,
`calculateRelevanceScore` returns exactly
`min(0.95, (E·1.0 + (P−E)·0.7 + S·0.5) / max(1, N))`, where `N` is the
number of keyword tokens of the goal, `E` is the number of goal tokens
appearing verbatim among the tokens of the verse's translated text plus
reflection, `P` is the number of goal tokens that are a substring of or
contain some verse token, and `S` counts at most one semantic match per
goal token via the fixed semantic-expansion table. -/
theorem claim_C1_relevance_formula (goal : String) (verse : QuranVerse) :
    calculateRelevanceScore goal verse =
      min (19/20)
        (((exactCount goal verse : ℚ) * 1 +
          ((looseCount goal verse : ℚ) - (exactCount goal verse : ℚ)) * (7/10) +
          (semCount goal verse : ℚ) * (1/2)) /
         max 1 ((extractKeywords goal).length : ℚ)) :=
  calcScore_eq goal verse

/-! ### Claim C9 -/

/-- C9: for every goal text and every verse record, the value returned by
`calculateRelevanceScore` lies in the closed interval `[0, 0.95]` — never
negative despite the subtraction in the partial-match increment, and never
above the cap. -/
theorem claim_C9_score_bounds (goal : String) (verse : QuranVerse) :
    0 ≤ calculateRelevanceScore goal verse ∧
    calculateRelevanceScore goal verse ≤ 19/20 := by
  rw [calcScore_eq]
  constructor
  · apply le_min
    · norm_num
    · apply div_nonneg
      · have hEP : (exactCount goal verse : ℚ) ≤ looseCount goal verse := by
          exact_mod_cast exactCount_le_looseCount goal verse
        have h1 : 0 ≤ ((looseCount goal verse : ℚ) - exactCount goal verse) * (7/10) :=
          mul_nonneg (by linarith) (by norm_num)
        have h2 : 0 ≤ (semCount goal verse : ℚ) * (1/2) :=
          mul_nonneg (Nat.cast_nonneg _) (by norm_num)
        have h0 : 0 ≤ (exactCount goal verse : ℚ) * 1 :=
          mul_nonneg (Nat.cast_nonneg _) zero_le_one
        linarith
      · have h : (1:ℚ) ≤ max 1 ((extractKeywords goal).length : ℚ) := le_max_left _ _
        linarith
  · exact min_le_left _ _

/-! ### Claim C8 -/

/-- C8: for every keyword-token sequence, `determineTheme` returns the
theme with the strictly highest accumulated score (`+1` per token contained
in a theme's synonym list, `+0.5` per token occurring as a substring of the
theme's practical-guidance text), ties broken by the registration order of
the themes, and returns the default theme `guidance` when every theme's
score is zero. -/
theorem claim_C8_theme_argmax (ks : List String) :
    determineTheme ks = bestThemeSpec ks := by
  unfold determineTheme bestThemeSpec themeScoreEntries
  simp only []
  have hnn : ∀ p ∈ themeOrder.map (fun t => (t, themeScore t ks)), 0 ≤ Prod.snd p := by
    intro p hp
    obtain ⟨t, _, rfl⟩ := List.mem_map.mp hp
    exact themeScore_nonneg t ks
  by_cases hz : ∀ p ∈ themeOrder.map (fun t => (t, themeScore t ks)), p.2 = 0
  · rw [if_pos hz]
    have hfil : (themeOrder.map (fun t => (t, themeScore t ks))).filter
        (fun p => qLtB 0 p.2) = [] := by
      rw [List.filter_eq_nil_iff]
      intro p hp
      rw [qLtB_eq, hz p hp]
      simp
    rw [hfil]
    rfl
  · rw [if_neg hz]
    push_neg at hz
    obtain ⟨p, hp, hpne⟩ := hz
    have hpos : ∃ x ∈ themeOrder.map (fun t => (t, themeScore t ks)), 0 < Prod.snd x :=
      ⟨p, hp, lt_of_le_of_ne (hnn p hp) (Ne.symm hpne)⟩
    have hhead : (sortDesc Prod.snd ((themeOrder.map (fun t => (t, themeScore t ks))).filter
          (fun p => qLtB 0 p.2))).head?
        = firstMaxFold Prod.snd none (themeOrder.map (fun t => (t, themeScore t ks))) := by
      rw [sortDesc_head]
      exact fmf_filter_none Prod.snd _ hnn hpos
    cases hsd : sortDesc Prod.snd ((themeOrder.map (fun t => (t, themeScore t ks))).filter
        (fun p => qLtB 0 p.2)) with
    | nil =>
      exfalso
      rw [hsd] at hhead
      obtain ⟨x, hx, _⟩ := hpos
      cases hmap : themeOrder.map (fun t => (t, themeScore t ks)) with
      | nil =>
        rw [hmap] at hx
        exact absurd hx (List.not_mem_nil x)
      | cons a t =>
        rw [hmap, firstMaxFold_cons_none] at hhead
        obtain ⟨z, hzz⟩ := firstMaxFold_some Prod.snd t a
        rw [hzz] at hhead
        exact Option.noConfusion hhead
    | cons e rest =>
      rw [hsd] at hhead
      simp only [List.head?] at hhead
      rw [← hhead]

/-! ### Claim C2 -/

/-- C2: for every goal text, theme string, and every behaviour of the
remote API (each call may independently reject or answer arbitrarily, and
all random choices are arbitrary), the public methods `findVersesForGoal`,
`getAdditionalVersesForGoal` and `getThematicCollection` never reject:
each always resolves (with a possibly empty list, a fallback result, or
`null`). -/
theorem claim_C2_public_api_total (env : ApiEnv) (rng : ℕ → ℕ) (goal theme : String)
    (currentCount now : ℕ) (st : EngSt) :
    (findVersesForGoal env rng goal now st).1.isOk = true ∧
    (getAdditionalVersesForGoal env rng goal currentCount now st).1.isOk = true ∧
    (getThematicCollection env rng theme now st).1.isOk = true :=
  ⟨findVersesForGoal_isOk env rng goal now st,
   getAdditionalVersesForGoal_isOk env rng goal currentCount now st,
   getThematicCollection_isOk env rng theme now st⟩

/-! ### Claim C10 -/

/-- C10: for every goal text and every behaviour of the remote API,
`findVersesForGoal` resolves with at most 2 results; the assembly from
remote search results converts only the single top-ranked verse (at most 1
result), and the thematic fallback store serves at most the first 2 verses
of the cached collection. -/
theorem claim_C10_result_window (env : ApiEnv) (rng : ℕ → ℕ) (goal theme : String)
    (now : ℕ) (st : EngSt) :
    resLen (findVersesForGoal env rng goal now st) ≤ 2 ∧
    (getThematicVersesForGoal env rng theme goal now st).1.length ≤ 2 ∧
    (∀ (sorted : List APIVerse) (st' : EngSt),
      resLen (assembleMatches rng goal theme "Guidance for: " (sorted.take 1) [] st') ≤ 1) := by
  refine ⟨findVersesForGoal_len env rng goal now st,
          getThematicVersesForGoal_len env rng theme goal now st, ?_⟩
  intro sorted st'
  calc resLen _ ≤ ([] : List GoalMatchResult).length + (sorted.take 1).length :=
        assembleMatches_len rng goal theme "Guidance for: " (sorted.take 1) [] st'
    _ ≤ 1 := by simp [List.length_take]

/-! ### Claim C3 -/

/-- C3 counterexample: for the scenario input
`"Build a daily exercise habit"` the theme classifier does **not** return
`fitness`, contradicting the claim's final clause. -/
theorem claim_C3_counterexample :
    determineTheme (extractKeywords "Build a daily exercise habit") ≠ "fitness" := by
  decide

/-- C3 amended: for `"Build a daily exercise habit"` the extracted keywords
include `exercise`, `daily` and `habit`, and the `fitness` theme scores
above zero (via the synonym `exercise`); but the `change` theme scores
strictly higher (synonym `habit` plus the guidance line containing
`habit`), so the classifier returns `change`, not `fitness`. -/
theorem claim_C3_amended :
    "exercise" ∈ extractKeywords "Build a daily exercise habit" ∧
    "daily" ∈ extractKeywords "Build a daily exercise habit" ∧
    "habit" ∈ extractKeywords "Build a daily exercise habit" ∧
    0 < themeScore "fitness" (extractKeywords "Build a daily exercise habit") ∧
    themeScore "fitness" (extractKeywords "Build a daily exercise habit")
      < themeScore "change" (extractKeywords "Build a daily exercise habit") ∧
    determineTheme (extractKeywords "Build a daily exercise habit") = "change" := by
  decide

/-! ### Claim C4 -/

/-- C4 (code bug): under `envC4` the query loop issues exactly the three
built queries (all empty), the direct goal search at call index 3 returns
one verse, yet `findVersesForGoal` resolves with the (here empty) thematic
tier instead of a match built from the direct result, because
`generatePracticalSteps` raises a `TypeError` for the hard-coded
`guidance` theme (`PRACTICAL_GUIDANCE` lacks that key); the state shows
the thematic store was consulted four times. -/
theorem claim_C4_direct_tier_bug :
    (buildSearchQueries rngZero "xyz" (extractKeywords "xyz")
        (determineTheme (extractKeywords "xyz")) st0).1.length = 3 ∧
    envC4.search 3 "xyz" = Except.ok [vC4] ∧
    generatePracticalSteps "guidance" "xyz" = Except.error () ∧
    (findVersesForGoal envC4 rngZero "xyz" 0 st0).1 = Except.ok [] ∧
    (findVersesForGoal envC4 rngZero "xyz" 0 st0).2.thematicCalls = 4 := by
  refine ⟨by decide, by decide, by decide, by decide, by decide⟩

/-! ### Claim C5 -/

/-- C5 counterexample: two `findVersesForGoal ("Improve patience")` runs
that differ only in the randomness stream select the same verse (id 2153)
with different reflection texts, and their relevance scores differ as well
(`0.5` versus `0`), because the randomly chosen reflection is part of the
scored text — contradicting the claim that the scores are identical. -/
theorem claim_C5_counterexample :
    resIds (findVersesForGoal envPat rngZero "Improve patience" 0 st0) = [2153] ∧
    resIds (findVersesForGoal envPat rngTwo "Improve patience" 0 st0) = [2153] ∧
    resReflections (findVersesForGoal envPat rngZero "Improve patience" 0 st0)
      ≠ resReflections (findVersesForGoal envPat rngTwo "Improve patience" 0 st0) ∧
    resScores (findVersesForGoal envPat rngZero "Improve patience" 0 st0) = [mkRat 1 2] ∧
    resScores (findVersesForGoal envPat rngTwo "Improve patience" 0 st0) = [0] := by
  refine ⟨by decide, by decide, by decide, by decide, by decide⟩

/-- C5 amended: the relevance scorer itself is deterministic and depends
only on the goal text, the translated text and the reflection: two verse
records agreeing on `text_en` and `reflection` receive identical scores
(so two runs choosing the same reflection template score identically; runs
choosing different templates may not, as the counterexample shows). -/
theorem claim_C5_amended (goal : String) (v w : QuranVerse)
    (h1 : v.text_en = w.text_en) (h2 : v.reflection = w.reflection) :
    calculateRelevanceScore goal v = calculateRelevanceScore goal w := by
  unfold calculateRelevanceScore
  rw [h1, h2]

/-- C5 amended witness: two records differing only in their id receive the
same score. -/
theorem claim_C5_amended_witness :
    calculateRelevanceScore "Improve patience" vW1
      = calculateRelevanceScore "Improve patience" vW2 :=
  claim_C5_amended "Improve patience" vW1 vW2 rfl rfl

/-! ### Claim C6 -/

/-- C6 counterexample: a session of `findVersesForGoal ("patience")`
followed by `getAdditionalVersesForGoal ("patience", 1)` (state threaded,
same randomness stream, fixed remote behaviour) in which the second call
returns the verse with raw id 1001 and coordinates (2, 7) — exactly the
verse already returned by the first call — contradicting the claim that
the engine never returns such duplicates. -/
theorem claim_C6_counterexample :
    resIds (findVersesForGoal envSession rngSession "patience" 0 st0) = [1001] ∧
    resCoords (findVersesForGoal envSession rngSession "patience" 0 st0) = [(2, 7)] ∧
    resIds (getAdditionalVersesForGoal envSession rngSession "patience" 1 0
        (findVersesForGoal envSession rngSession "patience" 0 st0).2) = [1001] ∧
    resCoords (getAdditionalVersesForGoal envSession rngSession "patience" 1 0
        (findVersesForGoal envSession rngSession "patience" 0 st0).2) = [(2, 7)] := by
  refine ⟨by decide, by decide, by decide, by decide⟩

/-- C6 amended: the deduplication lives in the caller: the duplicate
filter of `handleLoadMore` guarantees that no verse appended to the
displayed list duplicates — by raw id or by `(surah_number, ayah)`
coordinates — a verse already shown. -/
theorem claim_C6_amended (existing additional : List GoalMatchResult)
    (m : GoalMatchResult) (hm : m ∈ filterNewGuidance existing additional) :
    ∀ g ∈ existing, g.verse.id ≠ m.verse.id ∧
      ¬(g.verse.surah_number = m.verse.surah_number ∧ g.verse.ayah = m.verse.ayah) := by
  intro g hg
  unfold filterNewGuidance at hm
  simp only [List.mem_filter, Bool.and_eq_true, Bool.not_eq_true'] at hm
  obtain ⟨-, h1, h2⟩ := hm
  refine ⟨?_, ?_⟩
  · intro hid
    have hc : (existing.map (fun g => g.verse.id)).contains m.verse.id = true := by
      simp only [List.contains_eq_any_beq, List.any_eq_true, List.mem_map, beq_iff_eq]
      exact ⟨g.verse.id, ⟨g, hg, rfl⟩, hid.symm⟩
    rw [h1] at hc
    exact Bool.false_ne_true hc
  · rintro ⟨hs, ha⟩
    have hc : (existing.map (fun g => (g.verse.surah_number, g.verse.ayah))).contains
        (m.verse.surah_number, m.verse.ayah) = true := by
      simp only [List.contains_eq_any_beq, List.any_eq_true, List.mem_map, beq_iff_eq]
      exact ⟨(g.verse.surah_number, g.verse.ayah), ⟨g, hg, rfl⟩, by rw [hs, ha]⟩
    rw [h2] at hc
    exact Bool.false_ne_true hc

/-- C6 amended witness: the filter removes the already-shown verse and the
kept result differs from the shown one in id and coordinates. -/
theorem claim_C6_amended_witness :
    (gmr vW1).verse.id ≠ mW.verse.id ∧
    ¬((gmr vW1).verse.surah_number = mW.verse.surah_number ∧
      (gmr vW1).verse.ayah = mW.verse.ayah) :=
  claim_C6_amended [gmr vW1] [gmr vW1, mW] mW (by decide) (gmr vW1) (by decide)

/-! ### Claim C7 -/

/-- C7: if a `getThematicCollection` call at time `t0` misses the cache
and stores its result, then the stored expiry is `t0 + CACHE_DURATION`
(5 minutes), that call issued exactly one remote search; a second call for
the same theme at any `t1 < t0 + CACHE_DURATION` returns exactly the
cached collection with the engine state unchanged (in particular no
further search), and a second call at `t1 ≥ t0 + CACHE_DURATION` treats
the entry as absent and issues a new remote search. -/
theorem claim_C7_cache_ttl (env : ApiEnv) (rng : ℕ → ℕ) (theme : String) (t0 t1 : ℕ)
    (st : EngSt)
    (hmiss : isCacheValid ("theme_" ++ theme) t0 st = false)
    (hok : okSomeB (getThematicCollection env rng theme t0 st).1 = true) :
    tblGet (getThematicCollection env rng theme t0 st).2.cacheExp ("theme_" ++ theme)
        = some (t0 + CACHE_DURATION) ∧
    (getThematicCollection env rng theme t0 st).2.searchCalls = st.searchCalls + 1 ∧
    (t1 < t0 + CACHE_DURATION →
      getThematicCollection env rng theme t1 (getThematicCollection env rng theme t0 st).2
        = ((getThematicCollection env rng theme t0 st).1,
           (getThematicCollection env rng theme t0 st).2)) ∧
    (t0 + CACHE_DURATION ≤ t1 →
      (getThematicCollection env rng theme t1
          (getThematicCollection env rng theme t0 st).2).2.searchCalls
        = (getThematicCollection env rng theme t0 st).2.searchCalls + 1) := by
  cases hs : env.search st.apiCalls (getThemeSearchTerms theme) with
  | error e =>
    exfalso
    have h := gtc_miss_err env rng theme t0 st e hmiss hs
    rw [h] at hok
    simp [okSomeB] at hok
  | ok rs =>
    obtain ⟨ha, hb⟩ := gtc_miss_store env rng theme t0 st rs hmiss hs
    refine ⟨ha, gtc_miss_searchCalls env rng theme t0 st hmiss, ?_, ?_⟩
    · intro hlt
      have hv : isCacheValid ("theme_" ++ theme) t1
          (getThematicCollection env rng theme t0 st).2 = true := by
        unfold isCacheValid
        rw [ha]
        exact decide_eq_true hlt
      rw [gtc_hit env rng theme t1 _ hv, ← hb]
    · intro hge
      have hv : isCacheValid ("theme_" ++ theme) t1
          (getThematicCollection env rng theme t0 st).2 = false := by
        unfold isCacheValid
        rw [ha]
        exact decide_eq_false (not_lt.mpr hge)
      exact gtc_miss_searchCalls env rng theme t1 _ hv

/-- C7 witness: the concrete environment `envPat`, theme `patience`, first
call at time `0` (cache empty), second call at time `1`. -/
theorem claim_C7_cache_ttl_witness :
    tblGet (getThematicCollection envPat rngZero "patience" 0 st0).2.cacheExp
        ("theme_" ++ "patience") = some (0 + CACHE_DURATION) ∧
    (getThematicCollection envPat rngZero "patience" 0 st0).2.searchCalls
        = st0.searchCalls + 1 ∧
    (1 < 0 + CACHE_DURATION →
      getThematicCollection envPat rngZero "patience" 1
          (getThematicCollection envPat rngZero "patience" 0 st0).2
        = ((getThematicCollection envPat rngZero "patience" 0 st0).1,
           (getThematicCollection envPat rngZero "patience" 0 st0).2)) ∧
    (0 + CACHE_DURATION ≤ 1 →
      (getThematicCollection envPat rngZero "patience" 1
          (getThematicCollection envPat rngZero "patience" 0 st0).2).2.searchCalls
        = (getThematicCollection envPat rngZero "patience" 0 st0).2.searchCalls + 1) :=
  claim_C7_cache_ttl envPat rngZero "patience" 0 1 st0 (by decide) (by decide)
